import Mathlib

/-!
Verification development for the kryoptic PKCS#11 token module.

The Rust sources are shallowly embedded: pure functions become Lean
functions, `&mut self` methods become explicit state passing, `KResult`
becomes `Except KErr`, and `CK_ULONG` (u64) values become `Nat` (with an
explicit `% 2 ^ 64` where an unguarded increment could wrap).  `HashMap`s
become association lists.  Code of the repository that is referenced but
not present in the sources (the session module, the attribute/template
engine behind `object::create`, the ASN.1 helper types and the low level
crypto primitives) is modelled from the specification; every such
definition is marked `Modelled from the spec:` in its doc comment.
Crypto primitives and the template engine are passed in as explicit
oracle parameters so that theorems quantify over their behaviour.
-/

/-! ## PKCS#11 constants (from the standard headers used by the bindings) -/

def CKR_OK : Nat := 0
def CKR_GENERAL_ERROR : Nat := 5
def CKR_ATTRIBUTE_SENSITIVE : Nat := 0x11
def CKR_ATTRIBUTE_TYPE_INVALID : Nat := 0x12
def CKR_ATTRIBUTE_VALUE_INVALID : Nat := 0x13
def CKR_DATA_INVALID : Nat := 0x20
def CKR_KEY_SIZE_RANGE : Nat := 0x62
def CKR_KEY_TYPE_INCONSISTENT : Nat := 0x63
def CKR_KEY_CHANGED : Nat := 0x65
def CKR_KEY_FUNCTION_NOT_PERMITTED : Nat := 0x68
def CKR_MECHANISM_INVALID : Nat := 0x70
def CKR_MECHANISM_PARAM_INVALID : Nat := 0x71
def CKR_OBJECT_HANDLE_INVALID : Nat := 0x82
def CKR_PIN_INCORRECT : Nat := 0xA0
def CKR_PIN_LEN_RANGE : Nat := 0xA2
def CKR_PIN_LOCKED : Nat := 0xA4
def CKR_SESSION_CLOSED : Nat := 0xB0
def CKR_SESSION_HANDLE_INVALID : Nat := 0xB3
def CKR_SESSION_READ_ONLY : Nat := 0xB5
def CKR_SESSION_EXISTS : Nat := 0xB6
def CKR_SESSION_READ_ONLY_EXISTS : Nat := 0xB7
def CKR_SESSION_READ_WRITE_SO_EXISTS : Nat := 0xB8
def CKR_TEMPLATE_INCOMPLETE : Nat := 0xD0
def CKR_TEMPLATE_INCONSISTENT : Nat := 0xD1
def CKR_USER_ALREADY_LOGGED_IN : Nat := 0x100
def CKR_USER_NOT_LOGGED_IN : Nat := 0x101
def CKR_USER_PIN_NOT_INITIALIZED : Nat := 0x102
def CKR_USER_TYPE_INVALID : Nat := 0x103
def CKR_USER_ANOTHER_ALREADY_LOGGED_IN : Nat := 0x104
def CKR_BUFFER_TOO_SMALL : Nat := 0x150
def CKR_VENDOR_DEFINED : Nat := 0x80000000

def CKA_CLASS : Nat := 0
def CKA_TOKEN : Nat := 1
def CKA_PRIVATE : Nat := 2
def CKA_LABEL : Nat := 3
def CKA_UNIQUE_ID : Nat := 4
def CKA_APPLICATION : Nat := 0x10
def CKA_VALUE : Nat := 0x11
def CKA_KEY_TYPE : Nat := 0x100
def CKA_ID : Nat := 0x102
def CKA_SENSITIVE : Nat := 0x103
def CKA_ENCRYPT : Nat := 0x104
def CKA_DECRYPT : Nat := 0x105
def CKA_WRAP : Nat := 0x106
def CKA_UNWRAP : Nat := 0x107
def CKA_SIGN : Nat := 0x108
def CKA_VERIFY : Nat := 0x10A
def CKA_DERIVE : Nat := 0x10C
def CKA_MODULUS : Nat := 0x120
def CKA_MODULUS_BITS : Nat := 0x121
def CKA_PUBLIC_EXPONENT : Nat := 0x122
def CKA_PRIVATE_EXPONENT : Nat := 0x123
def CKA_VALUE_LEN : Nat := 0x161
def CKA_VENDOR_DEFINED : Nat := 0x80000000

def CKO_DATA : Nat := 0
def CKO_CERTIFICATE : Nat := 1
def CKO_PUBLIC_KEY : Nat := 2
def CKO_PRIVATE_KEY : Nat := 3
def CKO_SECRET_KEY : Nat := 4

def CKK_RSA : Nat := 0
def CKK_GENERIC_SECRET : Nat := 0x10
def CKK_AES : Nat := 0x1F

def CKU_SO : Nat := 0
def CKU_USER : Nat := 1

def CKF_RNG : Nat := 1
def CKF_LOGIN_REQUIRED : Nat := 4
def CKF_TOKEN_INITIALIZED : Nat := 0x400
def CKF_RW_SESSION : Nat := 2
def CKF_SERIAL_SESSION : Nat := 4

def CKF_ENCRYPT : Nat := 0x100
def CKF_DECRYPT : Nat := 0x200
def CKF_GENERATE : Nat := 0x8000
def CKF_WRAP : Nat := 0x20000
def CKF_UNWRAP : Nat := 0x40000

def CKM_RSA_PKCS : Nat := 1

def CK_INVALID_HANDLE : Nat := 0
def CK_UNAVAILABLE_INFORMATION : Nat := 2 ^ 64 - 1
def CK_EFFECTIVELY_INFINITE : Nat := 2 ^ 64 - 1

/-- Vendor attribute offset from `src/lib.rs` (`KRYATTR_OFFSET = 485259`). -/
def KRYATTR_OFFSET : Nat := 485259

/-- `KRYATTR_MAX_LOGIN_ATTEMPTS = CKA_VENDOR_DEFINED + KRYATTR_OFFSET + 1` (src/lib.rs). -/
def KRYATTR_MAX_LOGIN_ATTEMPTS : Nat := CKA_VENDOR_DEFINED + KRYATTR_OFFSET + 1

/-- Modelled from the spec: the vendor attribute code `KRA_MAX_LOGIN_ATTEMPTS`
used by `storage/aci.rs`; its defining module is not among the sources, only
its use sites.  Only its distinctness from other codes matters. -/
def KRA_MAX_LOGIN_ATTEMPTS : Nat := CKA_VENDOR_DEFINED + KRYATTR_OFFSET + 1

/-- Modelled from the spec: the vendor attribute code `KRA_LOGIN_ATTEMPTS`
used by `storage/aci.rs` to store the current failed-attempt counter. -/
def KRA_LOGIN_ATTEMPTS : Nat := CKA_VENDOR_DEFINED + KRYATTR_OFFSET + 2

/-! ## Errors (`error.rs` is not among the sources; modelled from its use
sites: `err_rv!` produces an `RvError` carrying a `CK_RV`, `err_not_found!`
produces a `NotFound` carrying a string; `err_to_rv!` maps `RvError` to its
code and anything else to `CKR_GENERAL_ERROR`). -/

inductive KErr where
  | rv (code : Nat)
  | notFound (s : String)
deriving DecidableEq, Repr

abbrev KResult (α : Type) := Except KErr α

/-- The `err_to_rv!` macro from `src/lib.rs`. -/
def err_to_rv : KErr → Nat
  | .rv code => code
  | .notFound _ => CKR_GENERAL_ERROR

/-! ## Attributes and objects

The attribute/object engine used by `token.rs` (`object::Object` with a
typed attribute list) is not among the sources (the `object.rs` present is
an incompatible earlier iteration).  Modelled from the spec: an attribute
is a tagged variant value identified by a 32-bit code; an object is a
stable collection of attributes keyed by code plus an ephemeral handle. -/

inductive AttrValue where
  | ofBool (b : Bool)
  | ofULong (n : Nat)
  | ofString (s : String)
  | ofBytes (bs : List Nat)
deriving DecidableEq, Repr

structure Attr where
  typ : Nat
  val : AttrValue
deriving DecidableEq, Repr

def Attribute.from_bool (t : Nat) (b : Bool) : Attr := ⟨t, .ofBool b⟩

def Attribute.from_ulong (t : Nat) (n : Nat) : Attr := ⟨t, .ofULong n⟩

def Attribute.from_string (t : Nat) (s : String) : Attr := ⟨t, .ofString s⟩

def Attribute.from_bytes (t : Nat) (bs : List Nat) : Attr := ⟨t, .ofBytes bs⟩

structure Object where
  handle : Nat
  attrs : List Attr
deriving DecidableEq, Repr

def Object.new (h : Nat) : Object := ⟨h, []⟩

def Object.get_handle (o : Object) : Nat := o.handle

/-- Replace the attribute with the same code, or append. -/
def setAttrList : List Attr → Attr → List Attr
  | [], a => [a]
  | b :: rest, a => if b.typ = a.typ then a :: rest else b :: setAttrList rest a

def Object.set_attr (o : Object) (a : Attr) : Object :=
  { o with attrs := setAttrList o.attrs a }

def Object.get_attr (o : Object) (t : Nat) : Option AttrValue :=
  (o.attrs.find? (fun a => a.typ = t)).map (fun a => a.val)

/-- Modelled from the spec: a query for an absent attribute reports
not-found, a query at the wrong type reports Attribute-Type-Invalid. -/
def Object.get_attr_as_bool (o : Object) (t : Nat) : KResult Bool :=
  match o.get_attr t with
  | some (.ofBool b) => .ok b
  | some _ => .error (.rv CKR_ATTRIBUTE_TYPE_INVALID)
  | none => .error (.notFound (toString t))

def Object.get_attr_as_ulong (o : Object) (t : Nat) : KResult Nat :=
  match o.get_attr t with
  | some (.ofULong n) => .ok n
  | some _ => .error (.rv CKR_ATTRIBUTE_TYPE_INVALID)
  | none => .error (.notFound (toString t))

def Object.get_attr_as_string (o : Object) (t : Nat) : KResult String :=
  match o.get_attr t with
  | some (.ofString s) => .ok s
  | some _ => .error (.rv CKR_ATTRIBUTE_TYPE_INVALID)
  | none => .error (.notFound (toString t))

def Object.get_attr_as_bytes (o : Object) (t : Nat) : KResult (List Nat) :=
  match o.get_attr t with
  | some (.ofBytes bs) => .ok bs
  | some _ => .error (.rv CKR_ATTRIBUTE_TYPE_INVALID)
  | none => .error (.notFound (toString t))

/-- Modelled from the spec: `is_private` is derived from `CKA_PRIVATE`
(defaulting to private when absent, as in the `object.rs` iteration that is
among the sources). -/
def Object.is_private (o : Object) : Bool :=
  match o.get_attr CKA_PRIVATE with
  | some (.ofBool b) => b
  | _ => true

/-- Modelled from the spec: `is_token` is derived from `CKA_TOKEN`
(defaulting to false when absent, as in the `object.rs` iteration that is
among the sources). -/
def Object.is_token (o : Object) : Bool :=
  match o.get_attr CKA_TOKEN with
  | some (.ofBool b) => b
  | _ => false

/-- Modelled from the spec: template match is a conjunction of
attribute-equality filters. -/
def Object.match_template (o : Object) (template : List Attr) : Bool :=
  template.all (fun a => decide (o.get_attr a.typ = some a.val))

/-! ## Association lists standing in for the `HashMap`s of `token.rs`. -/

def alistInsert {α β : Type} [DecidableEq α] : List (α × β) → α → β → List (α × β)
  | [], k, v => [(k, v)]
  | (k', v') :: rest, k, v =>
    if k' = k then (k, v) :: rest else (k', v') :: alistInsert rest k v

def alistGet {α β : Type} [DecidableEq α] : List (α × β) → α → Option β
  | [], _ => none
  | (k', v') :: rest, k => if k' = k then some v' else alistGet rest k

theorem alistGet_insert_self {α β : Type} [DecidableEq α]
    (l : List (α × β)) (k : α) (v : β) : alistGet (alistInsert l k v) k = some v := by
  induction l with
  | nil => simp [alistInsert, alistGet]
  | cons p rest ih =>
    by_cases h : p.1 = k
    · simp [alistInsert, alistGet, h]
    · simp [alistInsert, alistGet, h, ih]

theorem alistGet_insert_ne {α β : Type} [DecidableEq α]
    (l : List (α × β)) (k k' : α) (v : β) (h : k ≠ k') :
    alistGet (alistInsert l k v) k' = alistGet l k' := by
  induction l with
  | nil => simp [alistInsert, alistGet, h]
  | cons p rest ih =>
    by_cases hk : p.1 = k
    · simp [alistInsert, alistGet, hk, h]
    · simp [alistInsert, alistGet, hk, ih]

/-! ## Login records (`LoginData` from `src/token.rs`). -/

structure LoginData where
  pin : Option (List Nat)
  max_attempts : Nat
  attempts : Nat
  logged_in : Bool
deriving DecidableEq, Repr

/-- Subset of `CK_TOKEN_INFO` consulted by the embedded code. -/
structure TokenInfo where
  flags : Nat
  ulMaxPinLen : Nat
  ulMinPinLen : Nat
deriving DecidableEq, Repr

/-- `LoginData::check_pin` from `src/token.rs`. -/
def LoginData.check_pin (l : LoginData) (pin : List Nat) : Nat × LoginData :=
  if l.max_attempts ≤ l.attempts then (CKR_PIN_LOCKED, l)
  else
    match l.pin with
    | some p =>
      if p = pin then (CKR_OK, { l with logged_in := true, attempts := 0 })
      else (CKR_PIN_INCORRECT, { l with attempts := l.attempts + 1 })
    | none => (CKR_USER_PIN_NOT_INITIALIZED, l)

/-- `LoginData::set_pin` from `src/token.rs`. -/
def LoginData.set_pin (l : LoginData) (info : TokenInfo) (pin : List Nat) :
    Nat × LoginData :=
  let pin_len := pin.length
  if info.ulMaxPinLen ≠ CK_EFFECTIVELY_INFINITE ∧ info.ulMaxPinLen < pin_len then
    (CKR_PIN_LEN_RANGE, l)
  else if pin_len < info.ulMinPinLen then (CKR_PIN_LEN_RANGE, l)
  else (CKR_OK, { l with pin := some pin, max_attempts := 10, attempts := 0 })

/-- `LoginData::change_pin` from `src/token.rs`. -/
def LoginData.change_pin (l : LoginData) (info : TokenInfo) (pin old : List Nat) :
    Nat × LoginData :=
  let (ret, l') := l.check_pin old
  if ret ≠ CKR_OK then (ret, l') else l'.set_pin info pin

/-! ## The token (`Token` from `src/token.rs`). -/

structure Token where
  info : TokenInfo
  objects : List (String × Object)
  dirty : Bool
  so_login : LoginData
  user_login : LoginData
  handles : List (Nat × String)
  next_handle : Nat
deriving DecidableEq, Repr

/-- The `Token` literal built by `Token::load` before any file is read
(missing-file case: `load` returns exactly this state). -/
def Token.fresh : Token :=
  { info := { flags := CKF_RNG + CKF_LOGIN_REQUIRED,
              ulMaxPinLen := CK_EFFECTIVELY_INFINITE, ulMinPinLen := 8 },
    objects := [],
    so_login := { pin := none, max_attempts := 0, attempts := 0, logged_in := false },
    user_login := { pin := none, max_attempts := 0, attempts := 0, logged_in := false },
    dirty := false,
    handles := [],
    next_handle := 1 }

/-- `Token::is_initialized`. -/
def Token.is_initialized (t : Token) : Bool :=
  t.info.flags &&& CKF_TOKEN_INITIALIZED = CKF_TOKEN_INITIALIZED

/-- `Token::next_object_handle`: returns the counter and bumps it
(`CK_ULONG` arithmetic, hence the `% 2 ^ 64`). -/
def Token.next_object_handle (t : Token) : Nat × Token :=
  (t.next_handle, { t with next_handle := (t.next_handle + 1) % 2 ^ 64 })

/-- `Token::store_pin_object`. -/
def Token.store_pin_object (t : Token) (uid label : String) (pin : List Nat) :
    KResult Token :=
  match alistGet t.objects uid with
  | some obj =>
    let obj' := obj.set_attr (Attribute.from_bytes CKA_VALUE pin)
    .ok { t with objects := alistInsert t.objects uid obj' }
  | none =>
    let (h, t₁) := t.next_object_handle
    let obj := (((((Object.new h).set_attr
      (Attribute.from_string CKA_UNIQUE_ID uid)).set_attr
      (Attribute.from_bool CKA_TOKEN true)).set_attr
      (Attribute.from_ulong CKA_CLASS CKO_SECRET_KEY)).set_attr
      (Attribute.from_ulong CKA_KEY_TYPE CKK_GENERIC_SECRET)).set_attr
      (Attribute.from_string CKA_LABEL label) |>.set_attr
      (Attribute.from_bytes CKA_VALUE pin)
    .ok { t₁ with handles := alistInsert t₁.handles obj.get_handle uid,
                  objects := alistInsert t₁.objects uid obj }

/-- The objects part of `Token::objects_to_json`: an object is serialized
exactly when `CKA_TOKEN` reads as the boolean `true` (read errors skip). -/
def Token.objects_to_json (t : Token) : List (List Attr) :=
  t.objects.filterMap (fun p =>
    match p.2.get_attr_as_bool CKA_TOKEN with
    | .ok true => some p.2.attrs
    | .ok false => none
    | .error _ => none)

/-- `Token::save`: nothing is written when the dirty flag is clear; the
file-system write itself is assumed to succeed, so the result records what
reaches the backing file (`none` = untouched). -/
def Token.save (t : Token) : KResult (Option (List (List Attr))) :=
  if t.dirty = false then .ok none
  else .ok (some t.objects_to_json)

/-- `Token::validate_pin_obj`. -/
def Token.validate_pin_obj (_t : Token) (obj : Object) (label : String) :
    KResult (List Nat × Nat) :=
  match obj.get_attr_as_ulong CKA_CLASS with
  | .error e => .error e
  | .ok cls =>
    if cls ≠ CKO_SECRET_KEY then .error (.rv CKR_GENERAL_ERROR)
    else match obj.get_attr_as_ulong CKA_KEY_TYPE with
    | .error e => .error e
    | .ok kt =>
      if kt ≠ CKK_GENERIC_SECRET then .error (.rv CKR_GENERAL_ERROR)
      else match obj.get_attr_as_string CKA_LABEL with
      | .error e => .error e
      | .ok lbl =>
        if lbl ≠ label then .error (.rv CKR_GENERAL_ERROR)
        else match obj.get_attr_as_bytes CKA_VALUE with
        | .error e => .error e
        | .ok value =>
          let max := match obj.get_attr_as_ulong KRYATTR_MAX_LOGIN_ATTEMPTS with
            | .ok n => n
            | .error _ => 10
          .ok (value, max)

/-- `Token::get_so_login_data` (the `&mut self` update returned as a new token). -/
def Token.get_so_login_data (t : Token) : KResult Token :=
  if t.so_login.pin.isSome then .ok t
  else match alistGet t.objects "0" with
  | none => .error (.rv CKR_GENERAL_ERROR)
  | some obj =>
    match t.validate_pin_obj obj "SO PIN" with
    | .error e => .error e
    | .ok (pin, max) =>
      .ok { t with so_login := { t.so_login with pin := some pin, max_attempts := max } }

/-- `Token::get_user_login_data`. -/
def Token.get_user_login_data (t : Token) : KResult Token :=
  if t.user_login.pin.isSome then .ok t
  else match alistGet t.objects "1" with
  | none => .error (.rv CKR_USER_PIN_NOT_INITIALIZED)
  | some obj =>
    match t.validate_pin_obj obj "User PIN" with
    | .error e => .error e
    | .ok (pin, max) =>
      .ok { t with user_login := { t.user_login with pin := some pin, max_attempts := max } }

/-- `Token::login`. -/
def Token.login (t : Token) (user_type : Nat) (pin : List Nat) : Nat × Token :=
  if user_type = CKU_SO then
    if t.so_login.logged_in then (CKR_USER_ALREADY_LOGGED_IN, t)
    else if t.user_login.logged_in then (CKR_USER_ANOTHER_ALREADY_LOGGED_IN, t)
    else match t.get_so_login_data with
    | .error e => (err_to_rv e, t)
    | .ok t' =>
      let (rv, sl) := t'.so_login.check_pin pin
      (rv, { t' with so_login := sl })
  else if user_type = CKU_USER then
    if t.user_login.logged_in then (CKR_USER_ALREADY_LOGGED_IN, t)
    else if t.so_login.logged_in then (CKR_USER_ANOTHER_ALREADY_LOGGED_IN, t)
    else match t.get_user_login_data with
    | .error e => (err_to_rv e, t)
    | .ok t' =>
      let (rv, ul) := t'.user_login.check_pin pin
      (rv, { t' with user_login := ul })
  else (CKR_USER_TYPE_INVALID, t)

/-- `Token::logout`. -/
def Token.logout (t : Token) : Nat × Token :=
  if t.user_login.logged_in then
    (CKR_OK, { t with user_login := { t.user_login with logged_in := false } })
  else if t.so_login.logged_in then
    (CKR_OK, { t with so_login := { t.so_login with logged_in := false } })
  else (CKR_USER_NOT_LOGGED_IN, t)

/-- `Token::is_logged_in`. -/
def Token.is_logged_in (t : Token) (user_type : Nat) : Bool :=
  if user_type = CK_UNAVAILABLE_INFORMATION then
    t.so_login.logged_in || t.user_login.logged_in
  else if user_type = CKU_SO then t.so_login.logged_in
  else if user_type = CKU_USER then t.user_login.logged_in
  else false

/-- `Token::set_pin` (the trailing `self.save()` is the always-succeeding
file write, so the success path returns `CKR_OK`). -/
def Token.set_pin (t : Token) (user_type : Nat) (pin : List Nat)
    (old : Option (List Nat)) : Nat × Token :=
  let utype := if user_type = CK_UNAVAILABLE_INFORMATION then
      (if t.so_login.logged_in then CKU_SO else CKU_USER)
    else user_type
  if utype = CKU_USER then
    let (ret, t₁) :=
      if t.so_login.logged_in then
        let (rv, ul) := t.user_login.set_pin t.info pin
        (rv, { t with user_login := ul })
      else match old with
      | none => (CKR_PIN_INCORRECT, t)
      | some o =>
        let (rv, ul) := t.user_login.change_pin t.info pin o
        (rv, { t with user_login := ul })
    if ret ≠ CKR_OK then (ret, t₁)
    else match t₁.store_pin_object "1" "User PIN" pin with
    | .error _ => (CKR_GENERAL_ERROR, t₁)
    | .ok t₂ => (CKR_OK, { t₂ with dirty := true })
  else if utype = CKU_SO then
    match old with
    | none => (CKR_PIN_INCORRECT, t)
    | some o =>
      let (ret, sl) := t.so_login.change_pin t.info pin o
      let t₁ := { t with so_login := sl }
      if ret ≠ CKR_OK then (ret, t₁)
      else match t₁.store_pin_object "0" "SO PIN" pin with
      | .error _ => (CKR_GENERAL_ERROR, t₁)
      | .ok t₂ => (CKR_OK, { t₂ with dirty := true })
  else (CKR_GENERAL_ERROR, t)

/-- The opening authentication step of `Token::initialize`: SO login on an
already-initialized token, `so_login.set_pin` otherwise. -/
def Token.init_auth (t : Token) (pin : List Nat) : Nat × Token :=
  if t.is_initialized then t.login CKU_SO pin
  else
    let (rv, sl) := t.so_login.set_pin t.info pin
    (rv, { t with so_login := sl })

/-- `Token::initialize` (named `init` here): wipes the object store,
resets the handle counter to 1, and re-creates the SO PIN object.  The
`self.save()` file write is assumed to succeed. -/
def Token.init (t : Token) (pin : List Nat) : Nat × Token :=
  let (ret, t₁) := t.init_auth pin
  if ret ≠ CKR_OK then (ret, t₁)
  else
    let t₂ := { t₁ with so_login := { t₁.so_login with logged_in := false },
                        objects := [], handles := [], next_handle := 1,
                        dirty := true }
    match t₂.store_pin_object "0" "SO PIN" pin with
    | .error _ => (CKR_GENERAL_ERROR, t₂)
    | .ok t₃ =>
      (CKR_OK, { t₃ with info := { t₃.info with
                   flags := t₃.info.flags ||| CKF_TOKEN_INITIALIZED } })

/-- `Token::get_object_by_handle`. -/
def Token.get_object_by_handle (t : Token) (handle : Nat) (checks : Bool) :
    KResult Object :=
  match alistGet t.handles handle with
  | none => .error (.rv CKR_OBJECT_HANDLE_INVALID)
  | some s =>
    match alistGet t.objects s with
    | none => .error (.notFound s)
    | some o =>
      if checks ∧ t.user_login.logged_in = false ∧ o.is_private then
        .error (.rv CKR_OBJECT_HANDLE_INVALID)
      else .ok o

/-! ## Sessions

`session.rs` is not among the sources.  Modelled from the spec (§3, §4.5):
a session is a tuple of handle, slot id, flags and state; the state is one
of the five PKCS#11 session states; the search cursor (a snapshot list of
handles) and the list of session-owned object handles live on the session. -/

inductive SessionState where
  | ro_public
  | rw_public
  | ro_user
  | rw_user
  | rw_so
deriving DecidableEq, Repr

structure Session where
  handle : Nat
  slot_id : Nat
  flags : Nat
  state : SessionState
  search_handles : List Nat
  object_handles : List Nat
deriving DecidableEq, Repr

/-- Modelled from the spec: a session is writable iff it was opened with
`CKF_RW_SESSION`. -/
def Session.is_writable (s : Session) : Bool :=
  s.flags &&& CKF_RW_SESSION = CKF_RW_SESSION

/-- Modelled from the spec: clears the search snapshot. -/
def Session.reset_search_handles (s : Session) : Session :=
  { s with search_handles := [] }

/-- Modelled from the spec: appends a handle to the search snapshot. -/
def Session.add_search_handle (s : Session) (h : Nat) : Session :=
  { s with search_handles := s.search_handles ++ [h] }

/-- Modelled from the spec: registers a session-owned object handle. -/
def Session.add_handle (s : Session) (h : Nat) : Session :=
  { s with object_handles := s.object_handles ++ [h] }

/-- Modelled from the spec (§4.5 transition table): a login as `user_type`
moves a public session to the corresponding logged-in state for its
read/write flavour; `CK_UNAVAILABLE_INFORMATION` (logout) moves any
logged-in state back to public.  Transitions absent from the table fail:
logging in SO over a read-only session with Session-Read-Only-Exists, any
other missing transition with the generic fallback code. -/
def Session.change_session_state (s : Session) (user_type : Nat) :
    Nat × Session :=
  if user_type = CKU_USER then
    match s.state with
    | .ro_public => (CKR_OK, { s with state := .ro_user })
    | .rw_public => (CKR_OK, { s with state := .rw_user })
    | _ => (CKR_GENERAL_ERROR, s)
  else if user_type = CKU_SO then
    match s.state with
    | .rw_public => (CKR_OK, { s with state := .rw_so })
    | .ro_public => (CKR_SESSION_READ_ONLY_EXISTS, s)
    | .ro_user => (CKR_SESSION_READ_ONLY_EXISTS, s)
    | _ => (CKR_GENERAL_ERROR, s)
  else if user_type = CK_UNAVAILABLE_INFORMATION then
    match s.state with
    | .ro_user => (CKR_OK, { s with state := .ro_public })
    | .rw_user => (CKR_OK, { s with state := .rw_public })
    | .rw_so => (CKR_OK, { s with state := .rw_public })
    | st => (CKR_OK, { s with state := st })
  else (CKR_GENERAL_ERROR, s)

/-! ## Remaining `Token` operations that involve sessions. -/

/-- `Token::search` from `src/token.rs`: resets the session's snapshot,
then walks every object, skipping private objects when no user is logged
in, and records the handle of each object matching the template. -/
def Token.search (t : Token) (session : Session) (template : List Attr) :
    Session :=
  (t.objects.foldl (fun ss p =>
      if t.user_login.logged_in = false ∧ p.2.is_private then ss
      else if p.2.match_template template then ss.add_search_handle p.2.get_handle
      else ss)
    session.reset_search_handles)

/-- `Token::create_object` from `src/token.rs`, with the template engine
behind `object::create` passed as the oracle `oc` (it receives the freshly
allocated handle and the template).  The state is threaded explicitly so
partial `&mut self` effects on error paths are preserved. -/
def Token.create_object (oc : Nat → List Attr → KResult Object)
    (t : Token) (session : Session) (template : List Attr) :
    Token × Session × KResult Nat :=
  if t.user_login.logged_in = false then
    (t, session, .error (.rv CKR_USER_NOT_LOGGED_IN))
  else
    let (h, t₁) := t.next_object_handle
    match oc h template with
    | .error e => (t₁, session, .error e)
    | .ok obj =>
      let handle := obj.get_handle
      match obj.get_attr_as_bool CKA_TOKEN with
      | .ok tokFlag =>
        let (t₂, s₂) :=
          if tokFlag then ({ t₁ with dirty := true }, session)
          else (t₁, session.add_handle handle)
        if tokFlag ∧ session.is_writable = false then
          (t₁, session, .error (.rv CKR_SESSION_READ_ONLY))
        else
          match obj.get_attr_as_string CKA_UNIQUE_ID with
          | .error e => (t₂, s₂, .error e)
          | .ok uid =>
            ({ t₂ with handles := alistInsert t₂.handles handle uid,
                       objects := alistInsert t₂.objects uid obj },
             s₂, .ok handle)
      | .error _ => (t₁, session, .error (.rv CKR_GENERAL_ERROR))

/-- `Token::get_object_attrs`: the attribute filling itself
(`Object::fill_template`, not among the sources) is the oracle `fill`. -/
def Token.get_object_attrs (fill : Object → List Attr → KResult (List Attr))
    (t : Token) (handle : Nat) (template : List Attr) : KResult (List Attr) :=
  match t.get_object_by_handle handle true with
  | .ok o => fill o template
  | .error e => .error e

/-! ## The session registry and `fn_login` (`src/lib.rs`). -/

structure SessionsState where
  sessions : List Session
  next_handle : Nat
deriving DecidableEq, Repr

/-- `SessionsState::get_session` from `src/lib.rs`. -/
def SessionsState.get_session (st : SessionsState) (handle : Nat) :
    KResult Session :=
  if st.next_handle ≤ handle then .error (.rv CKR_SESSION_HANDLE_INVALID)
  else match st.sessions.find? (fun s => s.handle = handle) with
  | some s => .ok s
  | none => .error (.rv CKR_SESSION_CLOSED)

/-- `SessionsState::check_slot_has_sessions` from `src/lib.rs`. -/
def SessionsState.check_slot_has_sessions (st : SessionsState)
    (slot_id : Nat) (ro : Bool) : Bool :=
  st.sessions.any (fun s =>
    s.slot_id = slot_id &&
    (if ro then
       match s.state with
       | .ro_public => true
       | .ro_user => true
       | _ => false
     else true))

/-- `SessionsState::change_all_sessions_states` from `src/lib.rs`: walks
the session list, changing the state of each session on the slot, and
stops at the first failure — sessions already processed keep their new
state (the partially updated list is returned together with the code). -/
def change_all_sessions_states (sessions : List Session)
    (slot_id : Nat) (user_type : Nat) : Nat × List Session :=
  match sessions with
  | [] => (CKR_OK, [])
  | s :: rest =>
    if s.slot_id = slot_id then
      let (rv, s') := s.change_session_state user_type
      if rv ≠ CKR_OK then (rv, s' :: rest)
      else
        let (rv₂, rest') := change_all_sessions_states rest slot_id user_type
        (rv₂, s' :: rest')
    else
      let (rv₂, rest') := change_all_sessions_states rest slot_id user_type
      (rv₂, s :: rest')

/-- `fn_login` from `src/lib.rs`, from the point where the global locks
are held: looks up the session, pre-checks the read-only-session rule for
SO, logs the token in, and propagates the state change to every session on
the slot; if the propagation fails midway the token is logged out again
and all sessions on the slot are reverted to their public state. -/
def fn_login (st : SessionsState) (tok : Token) (handle : Nat)
    (user_type : Nat) (pin : List Nat) : Nat × Token × List Session :=
  match st.get_session handle with
  | .error e => (err_to_rv e, tok, st.sessions)
  | .ok session =>
    let slot_id := session.slot_id
    if user_type = CKU_SO ∧ st.check_slot_has_sessions slot_id true then
      (CKR_SESSION_READ_ONLY_EXISTS, tok, st.sessions)
    else
      let (ret, tok₁) := tok.login user_type pin
      if ret ≠ CKR_OK then (ret, tok₁, st.sessions)
      else
        let (rv, sessions₁) :=
          change_all_sessions_states st.sessions slot_id user_type
        if rv = CKR_OK then (CKR_OK, tok₁, sessions₁)
        else
          let (_, tok₂) := tok₁.logout
          let (_, sessions₂) :=
            change_all_sessions_states sessions₁ slot_id
              CK_UNAVAILABLE_INFORMATION
          (rv, tok₂, sessions₂)

/-! ## AES mechanism checks (`src/aes.rs`). -/

structure MechInfo where
  ulMinKeySize : Nat
  ulMaxKeySize : Nat
  flags : Nat
deriving DecidableEq, Repr

namespace aes

/-- `check_key_len` from `src/aes.rs`. -/
def check_key_len (len : Nat) : KResult Unit :=
  if len = 16 ∨ len = 24 ∨ len = 32 then .ok ()
  else .error (.rv CKR_KEY_SIZE_RANGE)

/-- `check_key_object` from `src/aes.rs`. -/
def check_key_object (key : Object) (op : Nat) : KResult Unit :=
  match key.get_attr_as_ulong CKA_CLASS with
  | .error e => .error e
  | .ok cls =>
    if cls ≠ CKO_SECRET_KEY then .error (.rv CKR_KEY_TYPE_INCONSISTENT)
    else match key.get_attr_as_ulong CKA_KEY_TYPE with
    | .error e => .error e
    | .ok kt =>
      if kt ≠ CKK_AES ∧ kt ≠ CKK_GENERIC_SECRET then
        .error (.rv CKR_KEY_TYPE_INCONSISTENT)
      else match key.get_attr_as_bool op with
      | .ok avail =>
        if avail = false then .error (.rv CKR_KEY_FUNCTION_NOT_PERMITTED)
        else .ok ()
      | .error _ => .error (.rv CKR_KEY_FUNCTION_NOT_PERMITTED)

/-- `AesKeyTemplate::create` from `src/aes.rs`: `default_object_create`
(the template engine, not among the sources) is the oracle `dObj`; the
created object's `CKA_VALUE` length is then checked. -/
def AesKeyTemplate.create (dObj : KResult Object) : KResult Object :=
  match dObj with
  | .error e => .error e
  | .ok obj =>
    match obj.get_attr_as_bytes CKA_VALUE with
    | .error e => .error e
    | .ok val =>
      match check_key_len val.length with
      | .error e => .error e
      | .ok _ => .ok obj

structure AesMechanism where
  info : MechInfo
deriving DecidableEq, Repr

/-- `AesMechanism::encryption_new` from `src/aes.rs`: mechanism info flags
must allow encryption, then the key object is vetted; the operation
construction (`AesOperation::encrypt_new`, OpenSSL-backed and not among
the sources) is the oracle `opNew`. -/
def AesMechanism.encryption_new (m : AesMechanism) (key : Object)
    (opNew : KResult Unit) : KResult Unit :=
  if m.info.flags &&& CKF_ENCRYPT ≠ CKF_ENCRYPT then
    .error (.rv CKR_MECHANISM_INVALID)
  else match check_key_object key CKA_ENCRYPT with
  | .error e => .error e
  | .ok _ => opNew

/-- `AesMechanism::decryption_new` from `src/aes.rs`. -/
def AesMechanism.decryption_new (m : AesMechanism) (key : Object)
    (opNew : KResult Unit) : KResult Unit :=
  if m.info.flags &&& CKF_DECRYPT ≠ CKF_DECRYPT then
    .error (.rv CKR_MECHANISM_INVALID)
  else match check_key_object key CKA_DECRYPT with
  | .error e => .error e
  | .ok _ => opNew

end aes

/-! ## RSA templates and mechanism checks (`src/rsa.rs`). -/

namespace rsa

/-- `MIN_RSA_SIZE_BYTES` from `src/rsa.rs` (1024 bits). -/
def MIN_RSA_SIZE_BYTES : Nat := 1024 / 8

/-- `RSAPubTemplate::create` from `src/rsa.rs`: the two attribute-check
passes (`basic_object_attrs_checks`, `pubkey_create_attrs_checks`, in the
object module which is not among the sources) are the oracles `ret1`,
`ret2` (their returned `CK_RV`); the modulus logic is from the source. -/
def RSAPubTemplate.create (ret1 ret2 : Nat) (obj : Object) : KResult Object :=
  if ret1 ≠ CKR_OK then .error (.rv ret1)
  else if ret2 ≠ CKR_OK then .error (.rv ret2)
  else match obj.get_attr_as_bytes CKA_MODULUS with
  | .error _ => .error (.rv CKR_TEMPLATE_INCOMPLETE)
  | .ok modulus =>
    match obj.get_attr_as_ulong CKA_MODULUS_BITS with
    | .ok _ => .error (.rv CKR_ATTRIBUTE_VALUE_INVALID)
    | .error (.notFound _) =>
      if modulus.length < MIN_RSA_SIZE_BYTES then
        .error (.rv CKR_ATTRIBUTE_VALUE_INVALID)
      else match obj.get_attr_as_bytes CKA_PUBLIC_EXPONENT with
      | .error _ => .error (.rv CKR_ATTRIBUTE_VALUE_INVALID)
      | .ok e =>
        if e.length = 0 then .error (.rv CKR_ATTRIBUTE_VALUE_INVALID)
        else .ok obj
    | .error e => .error e

/-- `RSAPrivTemplate::create` from `src/rsa.rs`. -/
def RSAPrivTemplate.create (ret1 ret2 : Nat) (obj : Object) : KResult Object :=
  if ret1 ≠ CKR_OK then .error (.rv ret1)
  else if ret2 ≠ CKR_OK then .error (.rv ret2)
  else match obj.get_attr_as_bytes CKA_MODULUS with
  | .error _ => .error (.rv CKR_TEMPLATE_INCOMPLETE)
  | .ok modulus =>
    if modulus.length < MIN_RSA_SIZE_BYTES then
      .error (.rv CKR_ATTRIBUTE_VALUE_INVALID)
    else match obj.get_attr_as_bytes CKA_PUBLIC_EXPONENT with
    | .error _ => .error (.rv CKR_ATTRIBUTE_VALUE_INVALID)
    | .ok e =>
      if e.length = 0 then .error (.rv CKR_ATTRIBUTE_VALUE_INVALID)
      else match obj.get_attr_as_bytes CKA_PRIVATE_EXPONENT with
      | .error _ => .error (.rv CKR_ATTRIBUTE_VALUE_INVALID)
      | .ok d =>
        if d.length = 0 then .error (.rv CKR_ATTRIBUTE_VALUE_INVALID)
        else .ok obj

/-- `check_key_object` from `src/rsa.rs`. -/
def check_key_object (key : Object) (pub : Bool) (op : Nat) : KResult Unit :=
  match key.get_attr_as_ulong CKA_CLASS with
  | .error e => .error e
  | .ok cls =>
    if cls = CKO_PUBLIC_KEY then
      if pub = false then .error (.rv CKR_KEY_TYPE_INCONSISTENT)
      else check_key_object_rest key op
    else if cls = CKO_PRIVATE_KEY then
      if pub then .error (.rv CKR_KEY_TYPE_INCONSISTENT)
      else check_key_object_rest key op
    else .error (.rv CKR_KEY_TYPE_INCONSISTENT)
where
  check_key_object_rest (key : Object) (op : Nat) : KResult Unit :=
    match key.get_attr_as_ulong CKA_KEY_TYPE with
    | .error e => .error e
    | .ok kt =>
      if kt ≠ CKK_RSA then .error (.rv CKR_KEY_TYPE_INCONSISTENT)
      else match key.get_attr_as_bool op with
      | .ok avail =>
        if avail = false then .error (.rv CKR_KEY_FUNCTION_NOT_PERMITTED)
        else .ok ()
      | .error _ => .error (.rv CKR_KEY_FUNCTION_NOT_PERMITTED)

structure RsaPKCSMechanism where
  info : MechInfo
deriving DecidableEq, Repr

/-- `RsaPKCSMechanism::encryption_new` from `src/rsa.rs`: the mechanism
code must be `CKM_RSA_PKCS`, the info flags must allow encryption, the key
must be a vetted RSA public key; the conversion of the key object to a
nettle public key is the oracle `toPub`. -/
def RsaPKCSMechanism.encryption_new (m : RsaPKCSMechanism)
    (mechanism : Nat) (key : Object) (toPub : KResult Unit) : KResult Unit :=
  if mechanism ≠ CKM_RSA_PKCS then .error (.rv CKR_MECHANISM_INVALID)
  else if m.info.flags &&& CKF_ENCRYPT ≠ CKF_ENCRYPT then
    .error (.rv CKR_MECHANISM_INVALID)
  else match check_key_object key true CKA_ENCRYPT with
  | .error e => .error e
  | .ok _ => toPub

/-- `RsaPKCSMechanism::decryption_new` from `src/rsa.rs`. -/
def RsaPKCSMechanism.decryption_new (m : RsaPKCSMechanism)
    (mechanism : Nat) (key : Object) (toPriv : KResult Unit) : KResult Unit :=
  if mechanism ≠ CKM_RSA_PKCS then .error (.rv CKR_MECHANISM_INVALID)
  else if m.info.flags &&& CKF_DECRYPT ≠ CKF_DECRYPT then
    .error (.rv CKR_MECHANISM_INVALID)
  else match check_key_object key false CKA_DECRYPT with
  | .error e => .error e
  | .ok _ => toPriv

end rsa

/-! ## The ACI layer (`src/storage/aci.rs`).

The ASN.1 envelope types come from `kasn1.rs`, which is not among the
sources; they are modelled from the spec (§6.3, `KProtectedData` /
`Kkbps1Params` / `Aes*Gcm`).  The cryptographic primitives reached through
`TokenFacilities` (the PBKDF2 key generation, AES-GCM message decryption,
HKDF expansion and the object factory) are oracle fields of `Facilities`. -/

namespace aci

/-- Bytes of an ASCII string, for the fixed AAD and sentinel constants. -/
def strBytes (s : String) : List Nat := s.data.map Char.toNat

inductive PrfAlg where
  | hmacSha1
  | hmacSha256
  | other
deriving DecidableEq, Repr

/-- Modelled from the spec: the `PBKDF2Params` DER sequence. -/
structure PBKDF2Params where
  salt : List Nat
  iteration_count : Nat
  key_length : Option Nat
  prf : PrfAlg
deriving DecidableEq, Repr

/-- Modelled from the spec: the `KKDF1Params` (HKDF-Expand) sequence. -/
structure KKDF1Params where
  info : List Nat
  key_length : Nat
deriving DecidableEq, Repr

/-- Modelled from the spec: the `Aes*Gcm` parameter sequence (iv, tag). -/
structure KGCMParams where
  aes_iv : List Nat
  aes_tag : List Nat
deriving DecidableEq, Repr

/-- Modelled from the spec: the parameter alternatives of a
`KAlgorithmIdentifier` that `decrypt_key`/`decrypt_data` distinguish. -/
inductive KdfAlg where
  | pbkdf2 (params : PBKDF2Params)
  | kkdf1 (params : KKDF1Params)
  | other
deriving DecidableEq, Repr

inductive EncAlg where
  | aes128Gcm (params : KGCMParams)
  | aes192Gcm (params : KGCMParams)
  | aes256Gcm (params : KGCMParams)
  | other
deriving DecidableEq, Repr

/-- Modelled from the spec: the `Kkbps1Params` sequence. -/
structure KKBPS1Params where
  key_version_number : Nat
  key_derivation_func : KdfAlg
  encryption_scheme : EncAlg
deriving DecidableEq, Repr

inductive EnvAlg where
  | kkbps1 (params : KKBPS1Params)
  | other
deriving DecidableEq, Repr

/-- Modelled from the spec: the outer `KProtectedData` sequence. -/
structure KProtectedData where
  algorithm : EnvAlg
  data : List Nat
deriving DecidableEq, Repr

/-- Oracles for the collaborators of `storage/aci.rs` that are outside the
sources: DER parsing, the PBKDF2 mechanism's `generate_key`, AES-GCM
message decryption, HKDF expansion and the object factories. -/
structure Facilities where
  parse : List Nat → Option KProtectedData
  pbkdf2_generate : PBKDF2Params → List Nat → List Attr → KResult Object
  gcm_msg_decrypt : Object → KGCMParams → List Nat → List Nat → KResult (List Nat)
  hkdf_expand_derive : KKDF1Params → Object → List Attr → KResult Object
  factories_create : List Attr → KResult Object

def KEK_AAD : String := "ENCRYPTION KEY"

def GEN_KEYTYP : Nat := CKK_GENERIC_SECRET

def AES_KEYTYP : Nat := CKK_AES

/-- `MAX_AES_SIZE_BYTES` (32) as `AES_KEYLEN` in `src/storage/aci.rs`. -/
def AES_KEYLEN : Nat := 32

def DEFAULT_PIN : String := "DEFAULT PIN"

def DEFPIN_ITER : Nat := 1000

/-- `MAX_LOGIN_ATTEMPTS` from `src/storage/aci.rs`. -/
def MAX_LOGIN_ATTEMPTS : Nat := 10

/-- `secret_key_template` from `src/storage/aci.rs`. -/
def secret_key_template (keytype keylen : Nat) : List Attr :=
  [Attribute.from_ulong CKA_CLASS CKO_SECRET_KEY,
   Attribute.from_ulong CKA_KEY_TYPE keytype,
   Attribute.from_ulong CKA_VALUE_LEN keylen] ++
  (if keytype = CKK_GENERIC_SECRET then [Attribute.from_bool CKA_DERIVE true]
   else [Attribute.from_bool CKA_DECRYPT true, Attribute.from_bool CKA_ENCRYPT true])

/-- `pbkdf2_derive` from `src/storage/aci.rs`: maps the PRF identifier to
a PKCS#11 PRF code (unsupported PRFs fail with Mechanism-Param-Invalid)
and invokes the PBKDF2 mechanism's `generate_key`. -/
def pbkdf2_derive (fac : Facilities) (params : PBKDF2Params)
    (secret : List Nat) (key_template : List Attr) : KResult Object :=
  match params.prf with
  | .hmacSha1 => fac.pbkdf2_generate params secret key_template
  | .hmacSha256 => fac.pbkdf2_generate params secret key_template
  | .other => .error (.rv CKR_MECHANISM_PARAM_INVALID)

/-- `hkdf_expand` from `src/storage/aci.rs` (the mechanism's derive
operation is the oracle). -/
def hkdf_expand (fac : Facilities) (params : KKDF1Params) (key : Object)
    (key_template : List Attr) : KResult Object :=
  fac.hkdf_expand_derive params key key_template

/-- `aes_gcm_decrypt` from `src/storage/aci.rs`. -/
def aes_gcm_decrypt (fac : Facilities) (key : Object) (gcm_params : KGCMParams)
    (aad : List Nat) (data : List Nat) : KResult (List Nat) :=
  fac.gcm_msg_decrypt key gcm_params aad data

/-- `decrypt_key` from `src/storage/aci.rs`: parses the DER envelope,
derives the key-encryption-key from the PIN with PBKDF2 (checking the
declared key length), and decrypts the payload with AES-GCM under the
fixed AAD, returning the key version number and the plaintext. -/
def decrypt_key (fac : Facilities) (pin : List Nat) (data : List Nat) :
    KResult (Nat × List Nat) :=
  match fac.parse data with
  | none => .error (.rv CKR_DATA_INVALID)
  | some pdata =>
    match pdata.algorithm with
    | .other => .error (.rv CKR_MECHANISM_INVALID)
    | .kkbps1 kkbps1 =>
      let keyRes : KResult Object :=
        match kkbps1.key_derivation_func with
        | .pbkdf2 params =>
          match params.key_length with
          | some keylen =>
            if keylen ≠ AES_KEYLEN then .error (.rv CKR_MECHANISM_PARAM_INVALID)
            else pbkdf2_derive fac params pin
              (secret_key_template AES_KEYTYP AES_KEYLEN)
          | none => pbkdf2_derive fac params pin
              (secret_key_template AES_KEYTYP AES_KEYLEN)
        | _ => .error (.rv CKR_MECHANISM_INVALID)
      match keyRes with
      | .error e => .error e
      | .ok key =>
        let gcmRes : KResult KGCMParams :=
          match kkbps1.encryption_scheme with
          | .aes128Gcm gcm => .ok gcm
          | .aes192Gcm gcm => .ok gcm
          | .aes256Gcm gcm => .ok gcm
          | .other => .error (.rv CKR_MECHANISM_INVALID)
        match gcmRes with
        | .error e => .error e
        | .ok params =>
          match aes_gcm_decrypt fac key params (strBytes KEK_AAD) pdata.data with
          | .error e => .error e
          | .ok plain => .ok (kkbps1.key_version_number, plain)

/-- `StorageAuthInfo` from `src/storage/aci.rs`. -/
structure StorageAuthInfo where
  max_attempts : Nat
  cur_attempts : Nat
  locked : Bool
  update_obj : Bool
deriving DecidableEq, Repr

/-- `StorageACI` from `src/storage/aci.rs`. -/
structure StorageACI where
  key : Option Object
  encrypt : Bool

/-- `StorageACI::new`. -/
def StorageACI.new (encrypt : Bool) : StorageACI := ⟨none, encrypt⟩

/-- `StorageACI::unauth`. -/
def StorageACI.unauth (st : StorageACI) : StorageACI := { st with key := none }

/-- `StorageACI::new_storage_object` from `src/storage/aci.rs`: a fresh
auth object with max attempts `MAX_LOGIN_ATTEMPTS = 10` and zero failures. -/
def new_storage_object (uid : String) : Object :=
  ((((Object.new 0).set_attr
    (Attribute.from_string CKA_UNIQUE_ID uid)).set_attr
    (Attribute.from_bool CKA_TOKEN true)).set_attr
    (Attribute.from_ulong CKA_CLASS CKO_SECRET_KEY)).set_attr
    (Attribute.from_ulong CKA_KEY_TYPE CKK_GENERIC_SECRET) |>.set_attr
    (Attribute.from_ulong KRA_MAX_LOGIN_ATTEMPTS MAX_LOGIN_ATTEMPTS) |>.set_attr
    (Attribute.from_ulong KRA_LOGIN_ATTEMPTS 0)

/-- `StorageACI::auth_object_is_default` from `src/storage/aci.rs`. -/
def StorageACI.auth_object_is_default (_st : StorageACI) (obj : Object) :
    KResult Bool :=
  match obj.get_attr_as_string CKA_LABEL with
  | .ok label => .ok (label = DEFAULT_PIN)
  | .error _ => .ok false

/-- `StorageACI::user_attempts` from `src/storage/aci.rs`: reads the max
and current attempt counters off the auth object; the record is locked
exactly when the current count has reached the maximum. -/
def StorageACI.user_attempts (_st : StorageACI) (obj : Object) :
    KResult StorageAuthInfo :=
  match obj.get_attr_as_ulong KRA_MAX_LOGIN_ATTEMPTS with
  | .error e => .error e
  | .ok max =>
    match obj.get_attr_as_ulong KRA_LOGIN_ATTEMPTS with
    | .error e => .error e
    | .ok cur =>
      .ok { max_attempts := max, cur_attempts := cur,
            locked := decide (max ≤ cur), update_obj := false }

/-- The decryption-and-counter step at the heart of
`StorageACI::authenticate` (the body of its `match decrypt_key(...)`):
returns the updated ACI state and the new value of the attempt counter. -/
def StorageACI.auth_step (st : StorageACI) (fac : Facilities)
    (pin wrapped : List Nat) (set_key : Bool) (cur : Nat) :
    KResult (StorageACI × Nat) :=
  match decrypt_key fac pin wrapped with
  | .ok (key_version, key) =>
    if key_version ≠ 1 then .ok (st, cur + 1)
    else if st.encrypt = false then
      if key = strBytes "NO ENCRYPTION" then .ok (st, 0)
      else .ok (st, cur + 1)
    else
      if set_key then
        let template := secret_key_template GEN_KEYTYP AES_KEYLEN ++
          [Attribute.from_bytes CKA_VALUE key]
        match fac.factories_create template with
        | .error e => .error e
        | .ok k => .ok ({ st with key := some k }, 0)
      else .ok (st, 0)
  | .error _ => .ok (st, cur + 1)

/-- `StorageACI::authenticate` from `src/storage/aci.rs`.  Returns the
updated ACI state, the (possibly updated) auth object and the auth info.
A locked record returns immediately; otherwise the wrapped master key is
decrypted with `decrypt_key` under the supplied PIN, the counter is reset
to 0 on success (installing the master key when `set_key` is requested and
encryption is enabled) and incremented by one on failure; a changed
counter is written back to the auth object with `update_obj` raised. -/
def StorageACI.authenticate (st : StorageACI) (fac : Facilities)
    (auth_obj : Object) (pin : List Nat) (set_key : Bool) :
    KResult (StorageACI × Object × StorageAuthInfo) :=
  match st.user_attempts auth_obj with
  | .error e => .error e
  | .ok info =>
    if info.locked then .ok (st, auth_obj, info)
    else
      let stored := info.cur_attempts
      match auth_obj.get_attr_as_bytes CKA_VALUE with
      | .error e => .error e
      | .ok wrapped =>
        match st.auth_step fac pin wrapped set_key info.cur_attempts with
        | .error e => .error e
        | .ok (st', cur') =>
          if cur' ≠ stored then
            .ok (st',
                 auth_obj.set_attr (Attribute.from_ulong KRA_LOGIN_ATTEMPTS cur'),
                 { info with cur_attempts := cur', update_obj := true })
          else .ok (st', auth_obj, { info with cur_attempts := cur' })

end aci

/-! ## The JSON storage backend (`src/storage/json_objects.rs`).

This file belongs to the storage-backend iteration of the repository in
which `StorageAuthInfo` carries `default_pin`/`cur_attempts`/`user_data`;
the `format` module it relies on (`StorageRaw`, `SO_ID`, `USER_ID`) is not
among the sources and is modelled from the spec (§6.3). -/

namespace json_objects

/-- The user-record shape used by `json_objects.rs` (`default_pin`,
`attempts`, optional wrapped-key `data`). -/
structure StorageAuthInfo where
  default_pin : Bool
  cur_attempts : Nat
  user_data : Option (List Nat)
deriving DecidableEq, Repr

/-- Modelled from the spec: the token-info record of the `StorageRaw`
interface (label/manufacturer/model/serial byte strings and flags). -/
structure StorageTokenInfo where
  label : List Nat
  manufacturer : List Nat
  model : List Nat
  serial : List Nat
  flags : Nat
deriving DecidableEq, Repr

/-- Modelled from the spec: `format::SO_ID`. -/
def SO_ID : String := "so"

/-- Modelled from the spec: `format::USER_ID`. -/
def USER_ID : String := "user"

/-- Modelled from the spec: the queries of the `StorageRaw` interface that
`JsonObjects::from_store` performs (an unfiltered object search, the token
info and the per-user auth records). -/
structure StorageRaw where
  search_all : List Object
  token_info : StorageTokenInfo
  fetch_user : String → Option StorageAuthInfo

inductive JValue where
  | jbool (b : Bool)
  | jnum (n : Nat)
  | jstr (s : String)
  | jbytes (bs : List Nat)
deriving DecidableEq, Repr

/-- A serialized JSON object: an attribute-name/value map (attribute names
are rendered from the code; base64 is kept as raw bytes). -/
structure JsonObject where
  attributes : List (String × JValue)
deriving DecidableEq, Repr

/-- `to_json_value` from `src/storage/json_objects.rs`, with the types
carried by the tagged attribute value. -/
def to_json_value : AttrValue → JValue
  | .ofBool b => .jbool b
  | .ofULong n => .jnum n
  | .ofString s => .jstr s
  | .ofBytes bs => .jbytes bs

/-- `JsonObject::from_object`. -/
def JsonObject.from_object (o : Object) : JsonObject :=
  ⟨o.attrs.map (fun a => (toString a.typ, to_json_value a.val))⟩

/-- `JsonObject::from_user`. -/
def JsonObject.from_user (uid : String) (info : StorageAuthInfo) : JsonObject :=
  ⟨[("name", .jstr uid),
    ("default_pin", .jbool info.default_pin),
    ("attempts", .jnum info.cur_attempts)] ++
   (match info.user_data with
    | some data => [("data", .jbytes data)]
    | none => [])⟩

structure JsonTokenInfo where
  label : List Nat
  manufacturer : List Nat
  model : List Nat
  serial : List Nat
  flags : Nat
deriving DecidableEq, Repr

structure JsonObjects where
  objects : List JsonObject
  users : Option (List JsonObject)
  token : Option JsonTokenInfo
deriving DecidableEq, Repr

/-- `JsonObjects::from_store` from `src/storage/json_objects.rs`: walks
the full object search skipping non-token objects, serializes the token
info, and serializes the auth record of each of the SO and user ids whose
fetch succeeds. -/
def JsonObjects.from_store (store : StorageRaw) : JsonObjects :=
  let jobjs := store.search_all.foldl (fun acc o =>
    if o.is_token = false then acc else acc ++ [JsonObject.from_object o]) []
  let info := store.token_info
  let jtoken : JsonTokenInfo :=
    { label := info.label, manufacturer := info.manufacturer,
      model := info.model, serial := info.serial, flags := info.flags }
  let jusers := [SO_ID, USER_ID].foldl (fun acc id =>
    match store.fetch_user id with
    | some u => acc ++ [JsonObject.from_user id u]
    | none => acc) []
  { objects := jobjs, users := some jusers, token := some jtoken }

end json_objects

/-! ## Claim C6: key-size validation. -/

/-- Claim C6: an AES key is accepted only when its value length is 16, 24
or 32 bytes, any other length being rejected with Key-Size-Range; an RSA
public or private key is accepted only when its modulus is at least 128
bytes, a shorter modulus being rejected with Attribute-Value-Invalid. -/
theorem C6_key_size_policy :
    (∀ len : Nat, (aes.check_key_len len = .ok () ↔
        (len = 16 ∨ len = 24 ∨ len = 32))
      ∧ (¬(len = 16 ∨ len = 24 ∨ len = 32) →
        aes.check_key_len len = .error (.rv CKR_KEY_SIZE_RANGE)))
    ∧ (∀ dObj obj, aes.AesKeyTemplate.create dObj = .ok obj →
        dObj = .ok obj ∧ ∃ val, obj.get_attr_as_bytes CKA_VALUE = .ok val ∧
          (val.length = 16 ∨ val.length = 24 ∨ val.length = 32))
    ∧ (∀ obj val, obj.get_attr_as_bytes CKA_VALUE = .ok val →
        ¬(val.length = 16 ∨ val.length = 24 ∨ val.length = 32) →
        aes.AesKeyTemplate.create (.ok obj) = .error (.rv CKR_KEY_SIZE_RANGE))
    ∧ (∀ obj obj', rsa.RSAPubTemplate.create CKR_OK CKR_OK obj = .ok obj' →
        ∃ m, obj.get_attr_as_bytes CKA_MODULUS = .ok m ∧
          rsa.MIN_RSA_SIZE_BYTES ≤ m.length)
    ∧ (∀ obj m, obj.get_attr_as_bytes CKA_MODULUS = .ok m →
        obj.get_attr CKA_MODULUS_BITS = none →
        m.length < rsa.MIN_RSA_SIZE_BYTES →
        rsa.RSAPubTemplate.create CKR_OK CKR_OK obj =
          .error (.rv CKR_ATTRIBUTE_VALUE_INVALID))
    ∧ (∀ obj obj', rsa.RSAPrivTemplate.create CKR_OK CKR_OK obj = .ok obj' →
        ∃ m, obj.get_attr_as_bytes CKA_MODULUS = .ok m ∧
          rsa.MIN_RSA_SIZE_BYTES ≤ m.length)
    ∧ (∀ obj m, obj.get_attr_as_bytes CKA_MODULUS = .ok m →
        m.length < rsa.MIN_RSA_SIZE_BYTES →
        rsa.RSAPrivTemplate.create CKR_OK CKR_OK obj =
          .error (.rv CKR_ATTRIBUTE_VALUE_INVALID)) := by
  refine ⟨?_, ?_, ?_, ?_, ?_, ?_, ?_⟩
  · intro len
    constructor
    · constructor
      · intro h
        by_contra hc
        simp [aes.check_key_len, hc] at h
      · intro h
        simp [aes.check_key_len, h]
    · intro h
      simp [aes.check_key_len, h]
  · intro dObj obj h
    match dObj with
    | .error e => simp [aes.AesKeyTemplate.create] at h
    | .ok o =>
      match hv : o.get_attr_as_bytes CKA_VALUE with
      | .error e => simp [aes.AesKeyTemplate.create, hv] at h
      | .ok val =>
        match hk : aes.check_key_len val.length with
        | .error e => simp [aes.AesKeyTemplate.create, hv, hk] at h
        | .ok u =>
          simp [aes.AesKeyTemplate.create, hv, hk] at h
          subst h
          refine ⟨rfl, val, hv, ?_⟩
          by_contra hc
          simp [aes.check_key_len, hc] at hk
  · intro obj val hval hlen
    simp [aes.AesKeyTemplate.create, hval, aes.check_key_len, hlen]
  · intro obj obj' h
    match hm : obj.get_attr_as_bytes CKA_MODULUS with
    | .error e => simp [rsa.RSAPubTemplate.create, hm] at h
    | .ok m =>
      refine ⟨m, rfl, ?_⟩
      match hb : obj.get_attr_as_ulong CKA_MODULUS_BITS with
      | .ok v => simp [rsa.RSAPubTemplate.create, hm, hb] at h
      | .error (.rv c) => simp [rsa.RSAPubTemplate.create, hm, hb] at h
      | .error (.notFound s) =>
        simp only [rsa.RSAPubTemplate.create, hm, hb] at h
        by_cases hlen : m.length < rsa.MIN_RSA_SIZE_BYTES
        · simp [hlen] at h
        · omega
  · intro obj m hm hbits hlen
    have hb : obj.get_attr_as_ulong CKA_MODULUS_BITS =
        .error (.notFound (toString CKA_MODULUS_BITS)) := by
      simp [Object.get_attr_as_ulong, hbits]
    simp [rsa.RSAPubTemplate.create, hm, hb, hlen]
  · intro obj obj' h
    match hm : obj.get_attr_as_bytes CKA_MODULUS with
    | .error e => simp [rsa.RSAPrivTemplate.create, hm] at h
    | .ok m =>
      refine ⟨m, rfl, ?_⟩
      simp only [rsa.RSAPrivTemplate.create, hm] at h
      by_cases hlen : m.length < rsa.MIN_RSA_SIZE_BYTES
      · simp [hlen] at h
      · omega
  · intro obj m hm hlen
    simp [rsa.RSAPrivTemplate.create, hm, hlen]

/-- A 3-byte AES key candidate used to witness C6. -/
def c6AesShortKey : Object := ⟨7, [Attribute.from_bytes CKA_VALUE [1, 2, 3]]⟩

/-- An RSA key candidate with a 16-byte modulus used to witness C6. -/
def c6RsaShortKey : Object :=
  ⟨8, [Attribute.from_bytes CKA_MODULUS (List.replicate 16 0),
       Attribute.from_bytes CKA_PUBLIC_EXPONENT [1, 0, 1],
       Attribute.from_bytes CKA_PRIVATE_EXPONENT [1, 0, 3]]⟩

theorem C6_key_size_policy_witness :
    aes.check_key_len 20 = .error (.rv CKR_KEY_SIZE_RANGE) ∧
    aes.AesKeyTemplate.create (.ok c6AesShortKey) =
      .error (.rv CKR_KEY_SIZE_RANGE) ∧
    rsa.RSAPubTemplate.create CKR_OK CKR_OK c6RsaShortKey =
      .error (.rv CKR_ATTRIBUTE_VALUE_INVALID) ∧
    rsa.RSAPrivTemplate.create CKR_OK CKR_OK c6RsaShortKey =
      .error (.rv CKR_ATTRIBUTE_VALUE_INVALID) :=
  ⟨(C6_key_size_policy.1 20).2 (by decide),
   C6_key_size_policy.2.2.1 c6AesShortKey [1, 2, 3] (by rfl) (by decide),
   C6_key_size_policy.2.2.2.2.1 c6RsaShortKey (List.replicate 16 0)
     (by rfl) (by rfl) (by decide),
   C6_key_size_policy.2.2.2.2.2.2 c6RsaShortKey (List.replicate 16 0)
     (by rfl) (by decide)⟩

/-! ## Claim C7: pre-operation key/mechanism validation. -/

/-- Claim C7: before an encryption or decryption operation is constructed,
the mechanism checks that its info flags permit the operation (else
Mechanism-Invalid), that the key's CKA_CLASS/CKA_KEY_TYPE fit the
mechanism (else Key-Type-Inconsistent), and that the key's per-operation
boolean is present and true (else Key-Function-Not-Permitted); only then
does the operation constructor run. -/
theorem C7_operation_gates :
    (∀ (m : aes.AesMechanism) (key : Object) (o : KResult Unit),
        (m.info.flags &&& CKF_ENCRYPT ≠ CKF_ENCRYPT →
          m.encryption_new key o = .error (.rv CKR_MECHANISM_INVALID))
      ∧ (m.info.flags &&& CKF_DECRYPT ≠ CKF_DECRYPT →
          m.decryption_new key o = .error (.rv CKR_MECHANISM_INVALID))
      ∧ (m.info.flags &&& CKF_ENCRYPT = CKF_ENCRYPT →
          aes.check_key_object key CKA_ENCRYPT = .ok () →
          m.encryption_new key o = o)
      ∧ (m.info.flags &&& CKF_DECRYPT = CKF_DECRYPT →
          aes.check_key_object key CKA_DECRYPT = .ok () →
          m.decryption_new key o = o))
    ∧ (∀ (key : Object) (op cls : Nat),
        key.get_attr_as_ulong CKA_CLASS = .ok cls → cls ≠ CKO_SECRET_KEY →
        aes.check_key_object key op = .error (.rv CKR_KEY_TYPE_INCONSISTENT))
    ∧ (∀ (key : Object) (op kt : Nat),
        key.get_attr_as_ulong CKA_CLASS = .ok CKO_SECRET_KEY →
        key.get_attr_as_ulong CKA_KEY_TYPE = .ok kt →
        kt ≠ CKK_AES → kt ≠ CKK_GENERIC_SECRET →
        aes.check_key_object key op = .error (.rv CKR_KEY_TYPE_INCONSISTENT))
    ∧ (∀ (key : Object) (op : Nat),
        key.get_attr_as_ulong CKA_CLASS = .ok CKO_SECRET_KEY →
        key.get_attr_as_ulong CKA_KEY_TYPE = .ok CKK_AES →
        (key.get_attr_as_bool op = .ok false ∨
         (∀ b, key.get_attr_as_bool op ≠ .ok b)) →
        aes.check_key_object key op = .error (.rv CKR_KEY_FUNCTION_NOT_PERMITTED))
    ∧ (∀ (key : Object) (op : Nat),
        key.get_attr_as_ulong CKA_CLASS = .ok CKO_SECRET_KEY →
        key.get_attr_as_ulong CKA_KEY_TYPE = .ok CKK_AES →
        key.get_attr_as_bool op = .ok true →
        aes.check_key_object key op = .ok ())
    ∧ (∀ (m : rsa.RsaPKCSMechanism) (key : Object) (o : KResult Unit),
        (m.info.flags &&& CKF_ENCRYPT ≠ CKF_ENCRYPT →
          m.encryption_new CKM_RSA_PKCS key o = .error (.rv CKR_MECHANISM_INVALID))
      ∧ (m.info.flags &&& CKF_DECRYPT ≠ CKF_DECRYPT →
          m.decryption_new CKM_RSA_PKCS key o = .error (.rv CKR_MECHANISM_INVALID))
      ∧ (m.info.flags &&& CKF_ENCRYPT = CKF_ENCRYPT →
          rsa.check_key_object key true CKA_ENCRYPT = .ok () →
          m.encryption_new CKM_RSA_PKCS key o = o)
      ∧ (m.info.flags &&& CKF_DECRYPT = CKF_DECRYPT →
          rsa.check_key_object key false CKA_DECRYPT = .ok () →
          m.decryption_new CKM_RSA_PKCS key o = o))
    ∧ (∀ (key : Object) (op cls : Nat) (pub : Bool),
        key.get_attr_as_ulong CKA_CLASS = .ok cls →
        cls ≠ CKO_PUBLIC_KEY → cls ≠ CKO_PRIVATE_KEY →
        rsa.check_key_object key pub op = .error (.rv CKR_KEY_TYPE_INCONSISTENT))
    ∧ (∀ (key : Object) (op : Nat),
        key.get_attr_as_ulong CKA_CLASS = .ok CKO_PUBLIC_KEY →
        rsa.check_key_object key false op = .error (.rv CKR_KEY_TYPE_INCONSISTENT))
    ∧ (∀ (key : Object) (op kt : Nat),
        key.get_attr_as_ulong CKA_CLASS = .ok CKO_PUBLIC_KEY →
        key.get_attr_as_ulong CKA_KEY_TYPE = .ok kt → kt ≠ CKK_RSA →
        rsa.check_key_object key true op = .error (.rv CKR_KEY_TYPE_INCONSISTENT))
    ∧ (∀ (key : Object) (op : Nat) (pub : Bool),
        key.get_attr_as_ulong CKA_CLASS =
          .ok (if pub then CKO_PUBLIC_KEY else CKO_PRIVATE_KEY) →
        key.get_attr_as_ulong CKA_KEY_TYPE = .ok CKK_RSA →
        (key.get_attr_as_bool op = .ok false ∨
         (∀ b, key.get_attr_as_bool op ≠ .ok b)) →
        rsa.check_key_object key pub op =
          .error (.rv CKR_KEY_FUNCTION_NOT_PERMITTED)) := by
  refine ⟨?_, ?_, ?_, ?_, ?_, ?_, ?_, ?_, ?_, ?_⟩
  · intro m key o
    refine ⟨?_, ?_, ?_, ?_⟩
    · intro hf
      simp [aes.AesMechanism.encryption_new, hf]
    · intro hf
      simp [aes.AesMechanism.decryption_new, hf]
    · intro hf hk
      simp [aes.AesMechanism.encryption_new, hf, hk]
    · intro hf hk
      simp [aes.AesMechanism.decryption_new, hf, hk]
  · intro key op cls hc hne
    simp [aes.check_key_object, hc, hne]
  · intro key op kt hc hk h1 h2
    simp [aes.check_key_object, hc, hk, h1, h2, CKO_SECRET_KEY]
  · intro key op hc hk hb
    rcases hb with hb | hb
    · simp [aes.check_key_object, hc, hk, hb, CKO_SECRET_KEY, CKK_AES]
    · match hob : key.get_attr_as_bool op with
      | .ok b => exact absurd hob (hb b)
      | .error e =>
        simp [aes.check_key_object, hc, hk, hob, CKO_SECRET_KEY, CKK_AES]
  · intro key op hc hk hb
    simp [aes.check_key_object, hc, hk, hb, CKO_SECRET_KEY, CKK_AES]
  · intro m key o
    refine ⟨?_, ?_, ?_, ?_⟩
    · intro hf
      simp [rsa.RsaPKCSMechanism.encryption_new, hf]
    · intro hf
      simp [rsa.RsaPKCSMechanism.decryption_new, hf]
    · intro hf hk
      simp [rsa.RsaPKCSMechanism.encryption_new, hf, hk]
    · intro hf hk
      simp [rsa.RsaPKCSMechanism.decryption_new, hf, hk]
  · intro key op cls pub hc h1 h2
    simp [rsa.check_key_object, hc, h1, h2]
  · intro key op hc
    simp [rsa.check_key_object, hc]
  · intro key op kt hc hk hne
    simp [rsa.check_key_object, rsa.check_key_object.check_key_object_rest,
      hc, hk, hne]
  · intro key op pub hc hk hb
    have hrest : rsa.check_key_object.check_key_object_rest key op =
        .error (.rv CKR_KEY_FUNCTION_NOT_PERMITTED) := by
      rcases hb with hb | hb
      · simp [rsa.check_key_object.check_key_object_rest, hk, hb]
      · match hob : key.get_attr_as_bool op with
        | .ok b => exact absurd hob (hb b)
        | .error e =>
          simp [rsa.check_key_object.check_key_object_rest, hk, hob]
    match pub with
    | true => simp at hc; simp [rsa.check_key_object, hc, hrest]
    | false =>
      simp at hc
      simp [rsa.check_key_object, hc, hrest, CKO_PRIVATE_KEY, CKO_PUBLIC_KEY]

/-- The AES keygen mechanism info (flags `CKF_GENERATE` only), to witness
that a mechanism without the encrypt flag rejects encryption. -/
def c7AesKeyGenMech : aes.AesMechanism :=
  ⟨{ ulMinKeySize := 16, ulMaxKeySize := 32, flags := CKF_GENERATE }⟩

/-- The AES ECB mechanism info as registered in `src/aes.rs`. -/
def c7AesEcbMech : aes.AesMechanism :=
  ⟨{ ulMinKeySize := 16, ulMaxKeySize := 32,
     flags := CKF_ENCRYPT + CKF_DECRYPT + CKF_WRAP + CKF_UNWRAP }⟩

/-- The RSA PKCS mechanism info as registered in `src/rsa.rs`. -/
def c7RsaMech : rsa.RsaPKCSMechanism :=
  ⟨{ ulMinKeySize := 1024, ulMaxKeySize := 4096,
     flags := CKF_ENCRYPT + CKF_DECRYPT }⟩

/-- An AES secret key allowed to encrypt but with no `CKA_DECRYPT`. -/
def c7AesKey : Object :=
  ⟨9, [Attribute.from_ulong CKA_CLASS CKO_SECRET_KEY,
       Attribute.from_ulong CKA_KEY_TYPE CKK_AES,
       Attribute.from_bool CKA_ENCRYPT true]⟩

/-- An RSA public key whose `CKA_ENCRYPT` is false. -/
def c7RsaPubKey : Object :=
  ⟨10, [Attribute.from_ulong CKA_CLASS CKO_PUBLIC_KEY,
        Attribute.from_ulong CKA_KEY_TYPE CKK_RSA,
        Attribute.from_bool CKA_ENCRYPT false]⟩

theorem C7_operation_gates_witness :
    c7AesKeyGenMech.encryption_new c7AesKey (.ok ()) =
      .error (.rv CKR_MECHANISM_INVALID) ∧
    c7AesEcbMech.encryption_new c7AesKey (.ok ()) = .ok () ∧
    aes.check_key_object c7AesKey CKA_DECRYPT =
      .error (.rv CKR_KEY_FUNCTION_NOT_PERMITTED) ∧
    aes.check_key_object c7RsaPubKey CKA_ENCRYPT =
      .error (.rv CKR_KEY_TYPE_INCONSISTENT) ∧
    rsa.check_key_object c7RsaPubKey true CKA_ENCRYPT =
      .error (.rv CKR_KEY_FUNCTION_NOT_PERMITTED) ∧
    rsa.check_key_object c7RsaPubKey false CKA_ENCRYPT =
      .error (.rv CKR_KEY_TYPE_INCONSISTENT) ∧
    rsa.check_key_object c7AesKey true CKA_ENCRYPT =
      .error (.rv CKR_KEY_TYPE_INCONSISTENT) :=
  ⟨(C7_operation_gates.1 c7AesKeyGenMech c7AesKey (.ok ())).1 (by decide),
   (C7_operation_gates.1 c7AesEcbMech c7AesKey (.ok ())).2.2.1 (by decide)
     (C7_operation_gates.2.2.2.2.1 c7AesKey CKA_ENCRYPT (by rfl) (by rfl)
       (by rfl)),
   C7_operation_gates.2.2.2.1 c7AesKey CKA_DECRYPT (by rfl) (by rfl)
     (Or.inr (fun b h => by cases h)),
   C7_operation_gates.2.1 c7RsaPubKey CKA_ENCRYPT CKO_PUBLIC_KEY (by rfl)
     (by decide),
   C7_operation_gates.2.2.2.2.2.2.2.2.2 c7RsaPubKey CKA_ENCRYPT true (by rfl)
     (by rfl) (Or.inl (by rfl)),
   C7_operation_gates.2.2.2.2.2.2.2.1 c7RsaPubKey CKA_ENCRYPT (by rfl),
   C7_operation_gates.2.2.2.2.2.2.1 c7AesKey CKA_ENCRYPT CKO_SECRET_KEY true
     (by rfl) (by decide) (by decide)⟩

/-! ## Claim C10: handle lookup with access checks. -/

/-- A token is well formed when every entry of the handle index points at
an object that exists in the object map (every code path inserts into the
two maps together, so this invariant holds for all reachable tokens). -/
def Token.WellFormedHandles (t : Token) : Prop :=
  ∀ h uid, alistGet t.handles h = some uid → ∃ o, alistGet t.objects uid = some o

/-- Claim C10: on a well-formed token, `get_object_by_handle` with checks
enabled fails with Object-Handle-Invalid in exactly two cases — the handle
is unmapped, or the object is private while no user is logged in — and in
every other case returns the object; in particular a logged-out caller
gets the identical error for a private object as for a nonexistent handle
and never any other error code. -/
theorem C10_handle_lookup_hides_private (t : Token) (h : Nat)
    (wf : t.WellFormedHandles) :
    (t.get_object_by_handle h true = .error (.rv CKR_OBJECT_HANDLE_INVALID) ↔
      (alistGet t.handles h = none ∨
       ∃ uid o, alistGet t.handles h = some uid ∧
         alistGet t.objects uid = some o ∧
         o.is_private = true ∧ t.user_login.logged_in = false))
    ∧ ((∃ o, t.get_object_by_handle h true = .ok o) ∨
       t.get_object_by_handle h true = .error (.rv CKR_OBJECT_HANDLE_INVALID))
    ∧ (∀ fill template,
        t.get_object_by_handle h true = .error (.rv CKR_OBJECT_HANDLE_INVALID) →
        Token.get_object_attrs fill t h template =
          .error (.rv CKR_OBJECT_HANDLE_INVALID)) := by
  refine ⟨?_, ?_, ?_⟩
  · constructor
    · intro he
      match hh : alistGet t.handles h with
      | none => exact Or.inl rfl
      | some uid =>
        match ho : alistGet t.objects uid with
        | none =>
          obtain ⟨o, hobj⟩ := wf h uid hh
          rw [hobj] at ho
          cases ho
        | some o =>
          refine Or.inr ⟨uid, o, rfl, ho, ?_⟩
          simp only [Token.get_object_by_handle, hh, ho] at he
          by_cases hc : t.user_login.logged_in = false ∧ o.is_private = true
          · exact ⟨hc.2, hc.1⟩
          · rw [if_neg (by simpa using hc)] at he
            cases he
    · intro hcase
      rcases hcase with hh | ⟨uid, o, hh, ho, hpriv, hlog⟩
      · simp [Token.get_object_by_handle, hh]
      · simp [Token.get_object_by_handle, hh, ho, hpriv, hlog]
  · match hh : alistGet t.handles h with
    | none => exact Or.inr (by simp [Token.get_object_by_handle, hh])
    | some uid =>
      match ho : alistGet t.objects uid with
      | none =>
        obtain ⟨o, hobj⟩ := wf h uid hh
        rw [hobj] at ho
        cases ho
      | some o =>
        by_cases hc : t.user_login.logged_in = false ∧ o.is_private = true
        · exact Or.inr (by simp [Token.get_object_by_handle, hh, ho, hc.1, hc.2])
        · refine Or.inl ⟨o, ?_⟩
          simp only [Token.get_object_by_handle, hh, ho]
          rw [if_neg (by simpa using hc)]
  · intro fill template he
    simp [Token.get_object_attrs, he]

/-- A public test object (mirrors unique id "2" of the test fixture). -/
def c10PubObj : Object :=
  ⟨2, [Attribute.from_ulong CKA_CLASS CKO_PUBLIC_KEY,
       Attribute.from_bool CKA_PRIVATE false,
       Attribute.from_bool CKA_TOKEN true]⟩

/-- A private test object (mirrors unique id "3" of the test fixture). -/
def c10PrivObj : Object :=
  ⟨3, [Attribute.from_ulong CKA_CLASS CKO_PRIVATE_KEY,
       Attribute.from_bool CKA_PRIVATE true,
       Attribute.from_bool CKA_TOKEN true]⟩

/-- A logged-out token holding one public and one private object. -/
def c10Token : Token :=
  { Token.fresh with
      objects := [("2", c10PubObj), ("3", c10PrivObj)],
      handles := [(2, "2"), (3, "3")] }

theorem c10Token_wf : c10Token.WellFormedHandles := by
  intro h uid hh
  simp only [c10Token, Token.fresh] at hh ⊢
  simp only [alistGet] at hh
  split_ifs at hh with h1 h2
  · cases hh
    exact ⟨c10PubObj, rfl⟩
  · cases hh
    exact ⟨c10PrivObj, rfl⟩

theorem C10_handle_lookup_hides_private_witness :
    c10Token.get_object_by_handle 3 true =
      .error (.rv CKR_OBJECT_HANDLE_INVALID) ∧
    c10Token.get_object_by_handle 99 true =
      .error (.rv CKR_OBJECT_HANDLE_INVALID) :=
  ⟨(C10_handle_lookup_hides_private c10Token 3 c10Token_wf).1.mpr
     (Or.inr ⟨"3", c10PrivObj, by rfl, by rfl, by rfl, by rfl⟩),
   (C10_handle_lookup_hides_private c10Token 99 c10Token_wf).1.mpr
     (Or.inl (by rfl))⟩

/-! ## Claim C3: private objects and search. -/

theorem search_foldl_aux (t : Token) (tmpl : List Attr) :
    ∀ (l : List (String × Object)) (s : Session),
      (List.foldl (fun ss p =>
          if t.user_login.logged_in = false ∧ p.2.is_private then ss
          else if p.2.match_template tmpl then
            ss.add_search_handle p.2.get_handle
          else ss) s l).search_handles
      = s.search_handles ++
        (l.filter (fun p => (t.user_login.logged_in || !p.2.is_private) &&
            p.2.match_template tmpl)).map (fun p => p.2.get_handle) := by
  intro l
  induction l with
  | nil => intro s; simp
  | cons p rest ih =>
    intro s
    simp only [List.foldl_cons, List.filter_cons]
    by_cases c1 : t.user_login.logged_in = false ∧ p.2.is_private = true
    · rw [if_pos c1]
      rw [ih s]
      have hflt : ((t.user_login.logged_in || !p.2.is_private) &&
          p.2.match_template tmpl) = false := by
        rw [c1.1, c1.2]
        simp
      rw [hflt]
      simp
    · rw [if_neg c1]
      have hcnd : (t.user_login.logged_in || !p.2.is_private) = true := by
        rcases Bool.eq_false_or_eq_true t.user_login.logged_in with h | h
        · rw [h]; rfl
        · rcases Bool.eq_false_or_eq_true p.2.is_private with h2 | h2
          · exact absurd ⟨h, h2⟩ c1
          · rw [h, h2]; rfl
      by_cases c2 : p.2.match_template tmpl = true
      · rw [if_pos c2, ih]
        rw [hcnd, c2]
        simp [Session.add_search_handle]
      · rw [if_neg c2, ih s]
        have hflt : ((t.user_login.logged_in || !p.2.is_private) &&
            p.2.match_template tmpl) = false := by
          rw [hcnd, Bool.eq_false_iff.mpr c2]
          rfl
        rw [hflt]
        simp

/-- The handles a search snapshot contains: exactly the handles of the
objects that pass the login/privacy filter and match the template. -/
theorem Token.search_handles_spec (t : Token) (sess : Session)
    (tmpl : List Attr) :
    (t.search sess tmpl).search_handles =
      (t.objects.filter (fun p =>
        (t.user_login.logged_in || !p.2.is_private) &&
          p.2.match_template tmpl)).map (fun p => p.2.get_handle) := by
  unfold Token.search
  rw [search_foldl_aux]
  simp [Session.reset_search_handles]

/-- Claim C3: a private object's handle never enters the session's search
snapshot while no user is logged in on the token, and an otherwise
matching template does yield the handle once a user is logged in. -/
theorem C3_search_private_visibility (t : Token) (sess : Session)
    (tmpl : List Attr) (uid : String) (o : Object)
    (hmem : (uid, o) ∈ t.objects) (hpriv : o.is_private = true) :
    (t.user_login.logged_in = false →
      (t.objects.map (fun p => p.2.get_handle)).Nodup →
      o.get_handle ∉ (t.search sess tmpl).search_handles)
    ∧ (t.user_login.logged_in = true → o.match_template tmpl = true →
      o.get_handle ∈ (t.search sess tmpl).search_handles) := by
  constructor
  · intro hlog hnodup hmem'
    rw [Token.search_handles_spec] at hmem'
    simp only [List.mem_map] at hmem'
    obtain ⟨p, hp, hph⟩ := hmem'
    rw [List.mem_filter] at hp
    have hpo : p = (uid, o) :=
      List.inj_on_of_nodup_map hnodup hp.1 hmem hph
    subst hpo
    rw [hlog, hpriv] at hp
    simp at hp
  · intro hlog hmatch
    rw [Token.search_handles_spec]
    rw [List.mem_map]
    refine ⟨(uid, o), ?_, rfl⟩
    rw [List.mem_filter]
    exact ⟨hmem, by rw [hlog, hmatch]; rfl⟩

def c3Session : Session :=
  { handle := 1, slot_id := 0, flags := CKF_SERIAL_SESSION,
    state := .ro_public, search_handles := [], object_handles := [] }

/-- The same store as `c10Token` but with the user logged in. -/
def c3TokenIn : Token :=
  { c10Token with user_login := { c10Token.user_login with logged_in := true } }

theorem C3_search_private_visibility_witness :
    c10PrivObj.get_handle ∉ (c10Token.search c3Session []).search_handles ∧
    c10PrivObj.get_handle ∈ (c3TokenIn.search c3Session []).search_handles :=
  ⟨(C3_search_private_visibility c10Token c3Session [] "3" c10PrivObj
      (by decide) (by rfl)).1 (by rfl) (by decide),
   (C3_search_private_visibility c3TokenIn c3Session [] "3" c10PrivObj
      (by decide) (by rfl)).2 (by rfl) (by rfl)⟩

/-! ## Claim C8: save is a no-op when clean and persists exactly the
token objects (plus token info and user records in the storage backend). -/

theorem foldl_append_filter {α β : Type} (f : α → β) (p : α → Bool) :
    ∀ (l : List α) (acc : List β),
      List.foldl (fun acc o => if p o = false then acc else acc ++ [f o]) acc l
      = acc ++ (l.filter p).map f := by
  intro l
  induction l with
  | nil => intro acc; simp
  | cons a rest ih =>
    intro acc
    simp only [List.foldl_cons, List.filter_cons]
    by_cases hp : p a = true
    · rw [hp]
      simp only [Bool.true_eq_false, if_false, ih]
      simp
    · rw [Bool.eq_false_iff.mpr hp]
      simp only [if_true, ih]
      simp

/-- Claim C8: `save()` succeeds without writing when the token is not
dirty; when dirty it writes exactly the serialized objects whose
`CKA_TOKEN` is true; and the JSON backend's `from_store` serializes the
token info record, the auth record of every fetchable user (SO and user),
and exactly the `CKA_TOKEN = true` objects of the store. -/
theorem C8_save_persists_token_objects :
    (∀ t : Token, t.dirty = false → t.save = .ok none)
    ∧ (∀ t : Token, t.dirty = true → t.save = .ok (some t.objects_to_json))
    ∧ (∀ (t : Token) (attrs : List Attr),
        attrs ∈ t.objects_to_json ↔
          ∃ uid o, (uid, o) ∈ t.objects ∧
            o.get_attr_as_bool CKA_TOKEN = .ok true ∧ attrs = o.attrs)
    ∧ (∀ (store : json_objects.StorageRaw) (jo : json_objects.JsonObject),
        jo ∈ (json_objects.JsonObjects.from_store store).objects ↔
          ∃ o, o ∈ store.search_all ∧ o.is_token = true ∧
            jo = json_objects.JsonObject.from_object o)
    ∧ (∀ store : json_objects.StorageRaw,
        (json_objects.JsonObjects.from_store store).token =
          some { label := store.token_info.label,
                 manufacturer := store.token_info.manufacturer,
                 model := store.token_info.model,
                 serial := store.token_info.serial,
                 flags := store.token_info.flags })
    ∧ (∀ store : json_objects.StorageRaw,
        (json_objects.JsonObjects.from_store store).users =
          some ([json_objects.SO_ID, json_objects.USER_ID].filterMap
            (fun id => (store.fetch_user id).map
              (json_objects.JsonObject.from_user id)))) := by
  refine ⟨?_, ?_, ?_, ?_, ?_, ?_⟩
  · intro t h
    simp [Token.save, h]
  · intro t h
    simp [Token.save, h]
  · intro t attrs
    unfold Token.objects_to_json
    rw [List.mem_filterMap]
    constructor
    · rintro ⟨p, hp, hsome⟩
      refine ⟨p.1, p.2, hp, ?_, ?_⟩
      · match htok : p.2.get_attr_as_bool CKA_TOKEN with
        | .ok true => rfl
        | .ok false => rw [htok] at hsome; cases hsome
        | .error e => rw [htok] at hsome; cases hsome
      · match htok : p.2.get_attr_as_bool CKA_TOKEN with
        | .ok true =>
          rw [htok] at hsome
          cases hsome
          rfl
        | .ok false => rw [htok] at hsome; cases hsome
        | .error e => rw [htok] at hsome; cases hsome
    · rintro ⟨uid, o, hmem, htok, rfl⟩
      exact ⟨(uid, o), hmem, by rw [htok]⟩
  · intro store jo
    show jo ∈ List.foldl _ [] store.search_all ↔ _
    have : List.foldl (fun acc o =>
        if o.is_token = false then acc
        else acc ++ [json_objects.JsonObject.from_object o]) [] store.search_all
        = [] ++ (store.search_all.filter (fun o => o.is_token)).map
            json_objects.JsonObject.from_object := by
      have hfn : (fun (acc : List json_objects.JsonObject) (o : Object) =>
          if o.is_token = false then acc
          else acc ++ [json_objects.JsonObject.from_object o])
          = (fun acc o =>
          if (fun o => o.is_token) o = false then acc
          else acc ++ [json_objects.JsonObject.from_object o]) := rfl
      rw [hfn, foldl_append_filter]
    rw [this]
    simp only [List.nil_append, List.mem_map, List.mem_filter]
    constructor
    · rintro ⟨o, ⟨ho, htok⟩, rfl⟩
      exact ⟨o, ho, htok, rfl⟩
    · rintro ⟨o, ho, htok, rfl⟩
      exact ⟨o, ⟨ho, htok⟩, rfl⟩
  · intro store
    rfl
  · intro store
    show some _ = some _
    congr 1
    simp only [List.filterMap]
    match h1 : store.fetch_user json_objects.SO_ID,
          h2 : store.fetch_user json_objects.USER_ID with
    | some u1, some u2 =>
      simp [json_objects.JsonObjects.from_store, h1, h2, List.filterMap, Option.map]
    | some u1, none =>
      simp [json_objects.JsonObjects.from_store, h1, h2, List.filterMap, Option.map]
    | none, some u2 =>
      simp [json_objects.JsonObjects.from_store, h1, h2, List.filterMap, Option.map]
    | none, none =>
      simp [json_objects.JsonObjects.from_store, h1, h2, List.filterMap, Option.map]

/-- A dirty variant of the two-object token. -/
def c8DirtyToken : Token := { c10Token with dirty := true }

/-- A session (non-token) object: `CKA_TOKEN = false`. -/
def c8SessObj : Object :=
  ⟨4, [Attribute.from_bool CKA_TOKEN false,
       Attribute.from_bool CKA_PRIVATE false]⟩

/-- A concrete storage backend holding one token and one session object,
with only the SO auth record present. -/
def c8Store : json_objects.StorageRaw :=
  { search_all := [c10PubObj, c8SessObj],
    token_info := { label := [75], manufacturer := [75], model := [70],
                    serial := [48], flags := 1029 },
    fetch_user := fun id =>
      if id = json_objects.SO_ID then
        some { default_pin := false, cur_attempts := 0, user_data := some [1, 2] }
      else none }

theorem C8_save_persists_token_objects_witness :
    c10Token.save = .ok none ∧
    c8DirtyToken.save = .ok (some c8DirtyToken.objects_to_json) ∧
    (c10PubObj.attrs ∈ c8DirtyToken.objects_to_json) ∧
    (json_objects.JsonObject.from_object c8SessObj ∉
      (json_objects.JsonObjects.from_store c8Store).objects) ∧
    (json_objects.JsonObjects.from_store c8Store).users =
      some [json_objects.JsonObject.from_user json_objects.SO_ID
        { default_pin := false, cur_attempts := 0, user_data := some [1, 2] }] :=
  ⟨C8_save_persists_token_objects.1 c10Token (by rfl),
   C8_save_persists_token_objects.2.1 c8DirtyToken (by rfl),
   (C8_save_persists_token_objects.2.2.1 c8DirtyToken c10PubObj.attrs).mpr
     ⟨"2", c10PubObj, by decide, by rfl, rfl⟩,
   fun hmem => by
     obtain ⟨o, ho, htok, heq⟩ :=
       (C8_save_persists_token_objects.2.2.2.1 c8Store
         (json_objects.JsonObject.from_object c8SessObj)).mp hmem
     have ho' : o = c10PubObj ∨ o = c8SessObj := by
       simpa [c8Store] using ho
     rcases ho' with rfl | rfl
     · exact absurd heq (by decide)
     · exact absurd htok (by decide),
   (C8_save_persists_token_objects.2.2.2.2.2 c8Store).trans (by decide)⟩

/-! ## Claim C4: create_object gates (corrected).

`Token::create_object` requires a logged-in user for every object, private
or not — the repository's own test (`test_create_objects`) asserts
`CKR_USER_NOT_LOGGED_IN` when creating a plain public data object before
login, so the code, not the claim, is authoritative here. -/

/-- A template-engine oracle that builds the object straight from the
template with the allocated handle. -/
def c4oc : Nat → List Attr → KResult Object := fun h tmpl => .ok ⟨h, tmpl⟩

/-- A non-private session-object template (CKA_TOKEN = false). -/
def c4Template : List Attr :=
  [Attribute.from_ulong CKA_CLASS CKO_DATA,
   Attribute.from_bool CKA_TOKEN false,
   Attribute.from_bool CKA_PRIVATE false,
   Attribute.from_string CKA_UNIQUE_ID "9"]

/-- Counterexample to claim C4 as stated: with no user logged in,
creating a non-private session object does not succeed — it fails with
User-Not-Logged-In (`c10Token` has no user logged in and the template is
non-private with `CKA_TOKEN = false`). -/
theorem C4_counterexample_login_required_for_public :
    (Token.create_object c4oc c10Token c3Session c4Template).2.2 =
      .error (.rv CKR_USER_NOT_LOGGED_IN) := by rfl

/-- Claim C4 (amended): `create_object` requires a user-logged-in session
for every object — not only private ones — failing with
User-Not-Logged-In otherwise; with a user logged in, a `CKA_TOKEN = true`
object additionally requires a writable session, failing with
Session-Read-Only, while a `CKA_TOKEN = false` object is created without
the writable check. -/
theorem C4_create_object_gates (oc : Nat → List Attr → KResult Object)
    (t : Token) (s : Session) (tmpl : List Attr) :
    (t.user_login.logged_in = false →
      Token.create_object oc t s tmpl =
        (t, s, .error (.rv CKR_USER_NOT_LOGGED_IN)))
    ∧ (∀ obj, t.user_login.logged_in = true →
        oc t.next_handle tmpl = .ok obj →
        obj.get_attr_as_bool CKA_TOKEN = .ok true →
        s.is_writable = false →
        (Token.create_object oc t s tmpl).2.2 =
          .error (.rv CKR_SESSION_READ_ONLY))
    ∧ (∀ obj uid, t.user_login.logged_in = true →
        oc t.next_handle tmpl = .ok obj →
        obj.get_attr_as_bool CKA_TOKEN = .ok false →
        obj.get_attr_as_string CKA_UNIQUE_ID = .ok uid →
        (Token.create_object oc t s tmpl).2.2 = .ok obj.get_handle)
    ∧ (∀ obj uid, t.user_login.logged_in = true →
        oc t.next_handle tmpl = .ok obj →
        obj.get_attr_as_bool CKA_TOKEN = .ok true →
        s.is_writable = true →
        obj.get_attr_as_string CKA_UNIQUE_ID = .ok uid →
        (Token.create_object oc t s tmpl).2.2 = .ok obj.get_handle) := by
  refine ⟨?_, ?_, ?_, ?_⟩
  · intro hlog
    simp [Token.create_object, hlog]
  · intro obj hlog hoc htok hw
    simp [Token.create_object, hlog, Token.next_object_handle, hoc, htok, hw]
  · intro obj uid hlog hoc htok huid
    simp [Token.create_object, hlog, Token.next_object_handle, hoc, htok, huid]
  · intro obj uid hlog hoc htok hw huid
    simp [Token.create_object, hlog, Token.next_object_handle, hoc, htok, hw,
      huid]

/-- A persistent-object template (CKA_TOKEN = true). -/
def c4TokTemplate : List Attr :=
  [Attribute.from_ulong CKA_CLASS CKO_DATA,
   Attribute.from_bool CKA_TOKEN true,
   Attribute.from_bool CKA_PRIVATE false,
   Attribute.from_string CKA_UNIQUE_ID "9"]

/-- A read-write session on the same slot. -/
def c4RwSession : Session :=
  { c3Session with flags := CKF_SERIAL_SESSION + CKF_RW_SESSION }

theorem C4_create_object_gates_witness :
    Token.create_object c4oc c10Token c3Session c4Template =
      (c10Token, c3Session, .error (.rv CKR_USER_NOT_LOGGED_IN)) ∧
    (Token.create_object c4oc c3TokenIn c3Session c4TokTemplate).2.2 =
      .error (.rv CKR_SESSION_READ_ONLY) ∧
    (Token.create_object c4oc c3TokenIn c3Session c4Template).2.2 =
      .ok (Object.get_handle ⟨c3TokenIn.next_handle, c4Template⟩) ∧
    (Token.create_object c4oc c3TokenIn c4RwSession c4TokTemplate).2.2 =
      .ok (Object.get_handle ⟨c3TokenIn.next_handle, c4TokTemplate⟩) :=
  ⟨(C4_create_object_gates c4oc c10Token c3Session c4Template).1 (by rfl),
   (C4_create_object_gates c4oc c3TokenIn c3Session c4TokTemplate).2.1
     ⟨c3TokenIn.next_handle, c4TokTemplate⟩ (by rfl) (by rfl) (by rfl) (by rfl),
   (C4_create_object_gates c4oc c3TokenIn c3Session c4Template).2.2.1
     ⟨c3TokenIn.next_handle, c4Template⟩ "9" (by rfl) (by rfl) (by rfl) (by rfl),
   (C4_create_object_gates c4oc c3TokenIn c4RwSession c4TokTemplate).2.2.2
     ⟨c3TokenIn.next_handle, c4TokTemplate⟩ "9" (by rfl) (by rfl) (by rfl)
     (by rfl) (by rfl)⟩

/-! ## Claim C9: object handle allocation (corrected).

Handles are allocated from a per-token monotone counter starting at 1, so
handle 0 is never produced and handles are not reused while the token
lives — but `Token::initialize` resets `next_handle` to 1 (together with
the object maps), so handle values ARE reused after a re-initialization
within the same process run.  The trace below exhibits the reuse. -/

def c9Pin : List Nat := [49, 50, 51, 52, 53, 54, 55, 56]

def c9PinU1 : List Nat := [65, 65, 65, 65, 65, 65, 65, 65]

def c9PinU2 : List Nat := [66, 66, 66, 66, 66, 66, 66, 66]

def c9s1 : Nat × Token := Token.fresh.init c9Pin

def c9s2 : Nat × Token := c9s1.2.login CKU_SO c9Pin

def c9s3 : Nat × Token := c9s2.2.set_pin CKU_USER c9PinU1 none

def c9s4 : Nat × Token := c9s3.2.logout

def c9s5 : Nat × Token := c9s4.2.init c9Pin

def c9s6 : Nat × Token := c9s5.2.login CKU_SO c9Pin

def c9s7 : Nat × Token := c9s6.2.set_pin CKU_USER c9PinU2 none

/-- Counterexample to claim C9 as stated: a legal call sequence (every
call returns CKR_OK) in one process run — initialize, SO login, set user
PIN, logout, re-initialize, SO login, set a different user PIN — assigns
handle 2 first to the user-PIN object holding `c9PinU1` and, after the
re-initialization, to a different object holding `c9PinU2`: the handle
value is reused for a different object within the run. -/
theorem C9_counterexample_handle_reuse_after_reinit :
    c9s1.1 = CKR_OK ∧ c9s2.1 = CKR_OK ∧ c9s3.1 = CKR_OK ∧
    c9s4.1 = CKR_OK ∧ c9s5.1 = CKR_OK ∧ c9s6.1 = CKR_OK ∧
    c9s7.1 = CKR_OK ∧
    (alistGet c9s3.2.objects "1").map Object.get_handle = some 2 ∧
    (alistGet c9s3.2.objects "1").bind (fun o => o.get_attr CKA_VALUE) =
      some (.ofBytes c9PinU1) ∧
    (alistGet c9s7.2.objects "1").map Object.get_handle = some 2 ∧
    (alistGet c9s7.2.objects "1").bind (fun o => o.get_attr CKA_VALUE) =
      some (.ofBytes c9PinU2) ∧
    alistGet c9s3.2.objects "1" ≠ alistGet c9s7.2.objects "1" := by
  decide

/-- Iterated handle allocation. -/
def allocs : Token → Nat → List Nat × Token
  | t, 0 => ([], t)
  | t, n + 1 =>
    let (h, t') := t.next_object_handle
    let (hs, t'') := allocs t' n
    (h :: hs, t'')

theorem allocs_range' :
    ∀ (n : Nat) (t : Token), t.next_handle + n < 2 ^ 64 →
      (allocs t n).1 = List.range' t.next_handle n ∧
      (allocs t n).2.next_handle = t.next_handle + n := by
  intro n
  induction n with
  | zero => intro t _; simp [allocs]
  | succ n ih =>
    intro t hb
    have hmod : (t.next_handle + 1) % 2 ^ 64 = t.next_handle + 1 :=
      Nat.mod_eq_of_lt (by omega)
    obtain ⟨ha, hb2⟩ := ih { t with next_handle := t.next_handle + 1 } (by
      show t.next_handle + 1 + n < 2 ^ 64
      omega)
    have ha' : (allocs { t with next_handle := t.next_handle + 1 } n).1 =
        List.range' (t.next_handle + 1) n := ha
    have hb2' : (allocs { t with next_handle := t.next_handle + 1 } n).2.next_handle =
        t.next_handle + 1 + n := hb2
    simp only [allocs, Token.next_object_handle, hmod]
    constructor
    · rw [List.range'_succ, ha']
    · rw [hb2']
      omega

/-- Claim C9 (amended): the counter starts at 1 on a fresh token; while
the token is not re-initialized, allocations yield the consecutive
handles from the counter — pairwise distinct and never the reserved
handle 0; but a successful `Token::initialize` resets the counter (its
own SO PIN object receives handle 1 again), so handles are reused across
re-initialization. -/
theorem C9_handle_allocation (t : Token) (n : Nat) (pin : List Nat)
    (h1 : 1 ≤ t.next_handle) (hb : t.next_handle + n < 2 ^ 64) :
    Token.fresh.next_handle = 1
    ∧ (allocs t n).1 = List.range' t.next_handle n
    ∧ (allocs t n).1.Nodup
    ∧ CK_INVALID_HANDLE ∉ (allocs t n).1
    ∧ ((t.init pin).1 = CKR_OK →
        (t.init pin).2.next_handle = 2 ∧
        alistGet (t.init pin).2.handles 1 = some "0") := by
  obtain ⟨hr, _⟩ := allocs_range' n t hb
  refine ⟨rfl, hr, ?_, ?_, ?_⟩
  · rw [hr]
    exact List.nodup_range' _ _
  · rw [hr]
    intro hmem
    have := (List.mem_range'_1).mp hmem
    simp only [CK_INVALID_HANDLE] at this
    omega
  · intro hok
    match hstep : t.init_auth pin with
    | (ret, t₁) =>
      by_cases hret : ret = CKR_OK
      · subst hret
        simp only [Token.init, hstep] at hok ⊢
        simp only [ne_eq, not_true_eq_false, if_false] at hok ⊢
        constructor
        · simp [Token.store_pin_object, alistGet, Token.next_object_handle]
        · simp [Token.store_pin_object, alistGet, Token.next_object_handle,
            Object.set_attr, Object.new, Object.get_handle, alistInsert]
      · simp only [Token.init, hstep] at hok
        rw [if_pos (by simpa using hret)] at hok
        exact absurd hok hret

theorem C9_handle_allocation_witness :
    (allocs Token.fresh 3).1 = [1, 2, 3] ∧
    CK_INVALID_HANDLE ∉ (allocs Token.fresh 3).1 ∧
    (Token.fresh.init c9Pin).2.next_handle = 2 ∧
    alistGet (Token.fresh.init c9Pin).2.handles 1 = some "0" :=
  ⟨((C9_handle_allocation Token.fresh 3 c9Pin (by decide)
      (by decide)).2.1).trans (by decide),
   (C9_handle_allocation Token.fresh 3 c9Pin (by decide) (by decide)).2.2.2.1,
   ((C9_handle_allocation Token.fresh 3 c9Pin (by decide)
      (by decide)).2.2.2.2 (by decide)).1,
   ((C9_handle_allocation Token.fresh 3 c9Pin (by decide)
      (by decide)).2.2.2.2 (by decide)).2⟩

/-! ## Claims C1 and C2: lockout accounting and authentication. -/

theorem find?_setAttrList_self (l : List Attr) (a : Attr) :
    (setAttrList l a).find? (fun b => b.typ = a.typ) = some a := by
  induction l with
  | nil => simp [setAttrList, List.find?]
  | cons b rest ih =>
    by_cases h : b.typ = a.typ
    · simp [setAttrList, h, List.find?]
    · simp only [setAttrList, if_neg h]
      rw [List.find?_cons_of_neg _ (by simpa using h)]
      exact ih

theorem find?_setAttrList_ne (l : List Attr) (a : Attr) (t : Nat)
    (h : t ≠ a.typ) :
    (setAttrList l a).find? (fun b => b.typ = t) =
      l.find? (fun b => b.typ = t) := by
  have hat : (decide (a.typ = t)) = false := by
    simp only [decide_eq_false_iff_not]
    exact fun hc => h hc.symm
  induction l with
  | nil =>
    simp only [setAttrList]
    rw [List.find?_cons, hat, List.find?_nil]
  | cons b rest ih =>
    by_cases hb : b.typ = a.typ
    · simp only [setAttrList, if_pos hb]
      rw [List.find?_cons, List.find?_cons, hat]
      have hbt : (decide (b.typ = t)) = false := by rw [hb]; exact hat
      rw [hbt]
    · simp only [setAttrList, if_neg hb]
      rw [List.find?_cons, List.find?_cons]
      cases hd : decide (b.typ = t) with
      | true => rfl
      | false => exact ih

theorem Object.get_attr_set_attr_self (o : Object) (a : Attr) :
    (o.set_attr a).get_attr a.typ = some a.val := by
  simp [Object.set_attr, Object.get_attr, find?_setAttrList_self]

theorem Object.get_attr_set_attr_ne (o : Object) (a : Attr) (t : Nat)
    (h : t ≠ a.typ) : (o.set_attr a).get_attr t = o.get_attr t := by
  simp [Object.set_attr, Object.get_attr, find?_setAttrList_ne _ _ _ h]

/-- Inversion of `user_attempts`: the info record reflects the two
counters stored on the object and is locked exactly at `cur ≥ max`. -/
theorem aci.user_attempts_spec (st : aci.StorageACI) (obj : Object)
    (info : aci.StorageAuthInfo) (h : st.user_attempts obj = .ok info) :
    obj.get_attr_as_ulong KRA_MAX_LOGIN_ATTEMPTS = .ok info.max_attempts ∧
    obj.get_attr_as_ulong KRA_LOGIN_ATTEMPTS = .ok info.cur_attempts ∧
    info.locked = decide (info.max_attempts ≤ info.cur_attempts) ∧
    info.update_obj = false := by
  unfold aci.StorageACI.user_attempts at h
  match hmax : obj.get_attr_as_ulong KRA_MAX_LOGIN_ATTEMPTS with
  | .error e => rw [hmax] at h; cases h
  | .ok max =>
    rw [hmax] at h
    match hcur : obj.get_attr_as_ulong KRA_LOGIN_ATTEMPTS with
    | .error e => rw [hcur] at h; cases h
    | .ok cur =>
      rw [hcur] at h
      cases h
      exact ⟨rfl, rfl, rfl, rfl⟩

/-- The attempt-counter update computed inside `authenticate` is either a
reset to 0 or an increment of the current count by one. -/
theorem aci.auth_step_cases (st : aci.StorageACI) (fac : aci.Facilities)
    (pin wrapped : List Nat) (sk : Bool) (cur : Nat)
    (st' : aci.StorageACI) (cur' : Nat)
    (h : st.auth_step fac pin wrapped sk cur = .ok (st', cur')) :
    cur' = 0 ∨ cur' = cur + 1 := by
  unfold aci.StorageACI.auth_step at h
  match hd : aci.decrypt_key fac pin wrapped with
  | .error e =>
    rw [hd] at h
    cases h
    exact Or.inr rfl
  | .ok (kv, key) =>
    rw [hd] at h
    by_cases hkv : kv = 1
    · subst hkv
      simp only [ne_eq, not_true_eq_false, if_false] at h
      by_cases henc : st.encrypt = false
      · rw [if_pos henc] at h
        by_cases hkey : key = aci.strBytes "NO ENCRYPTION"
        · rw [if_pos hkey] at h; cases h; exact Or.inl rfl
        · rw [if_neg hkey] at h; cases h; exact Or.inr rfl
      · rw [if_neg henc] at h
        by_cases hsk : sk = true
        · rw [if_pos hsk] at h
          match hc : fac.factories_create (aci.secret_key_template aci.GEN_KEYTYP aci.AES_KEYLEN ++ [Attribute.from_bytes CKA_VALUE key]) with
          | .error e =>
            simp only [hc] at h
            exact absurd h (by simp)
          | .ok k =>
            simp only [hc] at h
            cases h
            exact Or.inl rfl
        · rw [if_neg hsk] at h; cases h; exact Or.inl rfl
    · simp only [ne_eq, hkv, not_false_eq_true, if_true] at h
      cases h
      exact Or.inr rfl

/-- The counter invariant of an auth object: the stored current-attempt
count never exceeds the stored maximum. -/
def aci.AuthInv (obj : Object) : Prop :=
  ∀ max cur, obj.get_attr_as_ulong KRA_MAX_LOGIN_ATTEMPTS = .ok max →
    obj.get_attr_as_ulong KRA_LOGIN_ATTEMPTS = .ok cur → cur ≤ max

theorem Object.get_attr_set_from_ulong (o : Object) (t n : Nat) :
    (o.set_attr (Attribute.from_ulong t n)).get_attr t = some (.ofULong n) :=
  Object.get_attr_set_attr_self o (Attribute.from_ulong t n)

theorem Object.get_attr_as_ulong_set_from_ulong (o : Object) (t n : Nat) :
    (o.set_attr (Attribute.from_ulong t n)).get_attr_as_ulong t = .ok n := by
  unfold Object.get_attr_as_ulong
  rw [Object.get_attr_set_from_ulong]

theorem Object.get_attr_as_ulong_set_ulong_ne (o : Object) (t' n t : Nat)
    (h : t ≠ t') :
    (o.set_attr (Attribute.from_ulong t' n)).get_attr_as_ulong t =
      o.get_attr_as_ulong t := by
  unfold Object.get_attr_as_ulong
  rw [Object.get_attr_set_attr_ne o _ t h]

theorem aci.authenticate_preserves_inv (st : aci.StorageACI)
    (fac : aci.Facilities) (obj : Object) (pin : List Nat) (sk : Bool)
    (r : aci.StorageACI × Object × aci.StorageAuthInfo)
    (hinv : aci.AuthInv obj)
    (h : st.authenticate fac obj pin sk = .ok r) : aci.AuthInv r.2.1 := by
  unfold aci.StorageACI.authenticate at h
  match hua : st.user_attempts obj with
  | .error e => simp only [hua] at h; exact absurd h (by simp)
  | .ok info =>
    simp only [hua] at h
    by_cases hlock : info.locked = true
    · rw [if_pos hlock] at h
      cases h
      exact hinv
    · rw [if_neg hlock] at h
      match hv : obj.get_attr_as_bytes CKA_VALUE with
      | .error e => simp only [hv] at h; exact absurd h (by simp)
      | .ok wrapped =>
        simp only [hv] at h
        match hst : st.auth_step fac pin wrapped sk info.cur_attempts with
        | .error e => simp only [hst] at h; exact absurd h (by simp)
        | .ok (st', cur') =>
          simp only [hst] at h
          obtain hbound : cur' = 0 ∨ cur' = info.cur_attempts + 1 :=
            aci.auth_step_cases st fac pin wrapped sk
              info.cur_attempts st' cur' hst
          by_cases hne : cur' ≠ info.cur_attempts
          · rw [if_pos hne] at h
            cases h
            intro max cur hmax hcur
            rw [Object.get_attr_as_ulong_set_ulong_ne obj KRA_LOGIN_ATTEMPTS
              cur' KRA_MAX_LOGIN_ATTEMPTS (by decide)] at hmax
            rw [Object.get_attr_as_ulong_set_from_ulong] at hcur
            have hcureq : cur = cur' := by
              cases hcur
              rfl
            obtain ⟨hm, hcu, hlk, _⟩ := aci.user_attempts_spec st obj info hua
            have hmeq : max = info.max_attempts := by
              rw [hmax] at hm
              cases hm
              rfl
            subst hcureq
            rcases hbound with hb | hb
            · omega
            · have hlt : info.cur_attempts < info.max_attempts := by
                by_contra hge
                exact hlock (by rw [hlk]; simpa using Nat.le_of_not_lt hge)
              omega
          · rw [if_neg hne] at h
            cases h
            exact hinv

/-- One authentication attempt in a sequence: a failing call (an `Err`
return) leaves the state and auth object unchanged. -/
def aci.authStep (s : aci.StorageACI × Object)
    (inp : aci.Facilities × List Nat × Bool) : aci.StorageACI × Object :=
  match s.1.authenticate inp.1 s.2 inp.2.1 inp.2.2 with
  | .ok (st', obj', _) => (st', obj')
  | .error _ => s

/-- A whole sequence of authentication attempts. -/
def aci.runAuth (s : aci.StorageACI × Object)
    (inps : List (aci.Facilities × List Nat × Bool)) :
    aci.StorageACI × Object :=
  inps.foldl aci.authStep s

theorem aci.runAuth_preserves_inv :
    ∀ (inps : List (aci.Facilities × List Nat × Bool))
      (s : aci.StorageACI × Object),
      aci.AuthInv s.2 → aci.AuthInv (aci.runAuth s inps).2 := by
  intro inps
  induction inps with
  | nil => intro s h; exact h
  | cons inp rest ih =>
    intro s h
    have hstep : aci.AuthInv (aci.authStep s inp).2 := by
      unfold aci.authStep
      match hauth : s.1.authenticate inp.1 s.2 inp.2.1 inp.2.2 with
      | .ok (st', obj', info') =>
        exact aci.authenticate_preserves_inv s.1 inp.1 s.2 inp.2.1 inp.2.2
          (st', obj', info') h hauth
      | .error e => exact h
    exact ih (aci.authStep s inp) hstep

/-- A sequence of `check_pin` calls against a login record. -/
def LoginData.runPins (l : LoginData) (pins : List (List Nat)) : LoginData :=
  pins.foldl (fun l p => (l.check_pin p).2) l

theorem LoginData.check_pin_preserves (l : LoginData) (p : List Nat)
    (h : l.attempts ≤ l.max_attempts) :
    (l.check_pin p).2.attempts ≤ (l.check_pin p).2.max_attempts := by
  unfold LoginData.check_pin
  by_cases hlock : l.max_attempts ≤ l.attempts
  · rw [if_pos hlock]
    exact h
  · rw [if_neg hlock]
    rcases hp : l.pin with _ | q
    · simp only [hp]
      exact h
    · simp only [hp]
      by_cases hq : q = p
      · simp only [if_pos hq]
        exact Nat.zero_le _
      · simp only [if_neg hq]
        show l.attempts + 1 ≤ l.max_attempts
        omega

/-- Claim C1: the failed-attempt counter stays within `[0, max]` under
every sequence of authentication operations; a record is locked exactly
when the counter has reached the maximum; a locked record fails fast —
`LoginData::check_pin` returns PIN-Locked without touching the record,
and `StorageACI::authenticate` returns the unchanged state and object for
every PIN and every crypto oracle, so nothing is decrypted and the counter
is not incremented; fresh records carry the default maximum of 10. -/
theorem C1_lockout_accounting :
    (∀ (st : aci.StorageACI) (obj : Object) (info : aci.StorageAuthInfo),
        st.user_attempts obj = .ok info →
        (info.locked = true ↔ info.max_attempts ≤ info.cur_attempts))
    ∧ (∀ (st : aci.StorageACI) (fac : aci.Facilities) (obj : Object)
         (pin : List Nat) (sk : Bool) (info : aci.StorageAuthInfo),
        st.user_attempts obj = .ok info → info.locked = true →
        st.authenticate fac obj pin sk = .ok (st, obj, info))
    ∧ (∀ (st : aci.StorageACI) (obj : Object)
         (inps : List (aci.Facilities × List Nat × Bool)),
        aci.AuthInv obj → aci.AuthInv (aci.runAuth (st, obj) inps).2)
    ∧ ((aci.new_storage_object "so").get_attr_as_ulong
         KRA_MAX_LOGIN_ATTEMPTS = .ok 10
       ∧ (aci.new_storage_object "so").get_attr_as_ulong
         KRA_LOGIN_ATTEMPTS = .ok 0)
    ∧ (∀ (l : LoginData) (pin : List Nat), l.max_attempts ≤ l.attempts →
        l.check_pin pin = (CKR_PIN_LOCKED, l))
    ∧ (∀ (l : LoginData) (pins : List (List Nat)),
        l.attempts ≤ l.max_attempts →
        (l.runPins pins).attempts ≤ (l.runPins pins).max_attempts)
    ∧ (∀ (l : LoginData) (info : TokenInfo) (pin : List Nat),
        (l.set_pin info pin).1 = CKR_OK →
        (l.set_pin info pin).2.max_attempts = 10 ∧
          (l.set_pin info pin).2.attempts = 0) := by
  refine ⟨?_, ?_, ?_, ⟨by rfl, by rfl⟩, ?_, ?_, ?_⟩
  · intro st obj info h
    obtain ⟨_, _, hlk, _⟩ := aci.user_attempts_spec st obj info h
    rw [hlk]
    simp
  · intro st fac obj pin sk info hua hlock
    unfold aci.StorageACI.authenticate
    rw [hua]
    simp only [hlock, if_true]
  · intro st obj inps hinv
    exact aci.runAuth_preserves_inv inps (st, obj) hinv
  · intro l pin h
    unfold LoginData.check_pin
    rw [if_pos h]
  · intro l pins
    induction pins generalizing l with
    | nil => intro h; exact h
    | cons p rest ih =>
      intro h
      exact ih _ (LoginData.check_pin_preserves l p h)
  · intro l info pin h
    unfold LoginData.set_pin at h ⊢
    dsimp only at h ⊢
    split_ifs at h ⊢ with h1 h2
    · simp [CKR_PIN_LEN_RANGE, CKR_OK] at h
    · simp [CKR_PIN_LEN_RANGE, CKR_OK] at h
    · exact ⟨rfl, rfl⟩

/-- A crypto oracle assembly whose operations all fail (the concrete
values are irrelevant to the lockout accounting). -/
def c1Fac : aci.Facilities :=
  { parse := fun _ => none,
    pbkdf2_generate := fun _ _ _ => .error (.rv CKR_GENERAL_ERROR),
    gcm_msg_decrypt := fun _ _ _ _ => .error (.rv CKR_GENERAL_ERROR),
    hkdf_expand_derive := fun _ _ _ => .error (.rv CKR_GENERAL_ERROR),
    factories_create := fun _ => .error (.rv CKR_GENERAL_ERROR) }

/-- A locked auth object: 10 of 10 attempts consumed. -/
def c1LockedObj : Object :=
  (aci.new_storage_object "user").set_attr
    (Attribute.from_ulong KRA_LOGIN_ATTEMPTS 10)

/-- The locked auth info that `user_attempts` reads off `c1LockedObj`. -/
def c1LockedInfo : aci.StorageAuthInfo :=
  { max_attempts := 10, cur_attempts := 10, locked := true, update_obj := false }

theorem c1NewObjInv : aci.AuthInv (aci.new_storage_object "so") := by
  intro max cur hmax hcur
  have h1 : max = 10 :=
    (Except.ok.injEq _ _).mp (hmax.symm.trans
      (rfl : (aci.new_storage_object "so").get_attr_as_ulong
        KRA_MAX_LOGIN_ATTEMPTS = Except.ok 10))
  have h2 : cur = 0 :=
    (Except.ok.injEq _ _).mp (hcur.symm.trans
      (rfl : (aci.new_storage_object "so").get_attr_as_ulong
        KRA_LOGIN_ATTEMPTS = Except.ok 0))
  omega

/-- A locked login record. -/
def c1LockedLogin : LoginData :=
  { pin := some c9Pin, max_attempts := 10, attempts := 10, logged_in := false }

theorem C1_lockout_accounting_witness :
    (c1LockedInfo.locked = true ↔
      c1LockedInfo.max_attempts ≤ c1LockedInfo.cur_attempts) ∧
    (aci.StorageACI.new true).authenticate c1Fac c1LockedObj c9Pin true =
      .ok (aci.StorageACI.new true, c1LockedObj, c1LockedInfo) ∧
    aci.AuthInv (aci.runAuth (aci.StorageACI.new true,
      aci.new_storage_object "so") [(c1Fac, c9Pin, true)]).2 ∧
    c1LockedLogin.check_pin c9Pin = (CKR_PIN_LOCKED, c1LockedLogin) ∧
    (LoginData.runPins c1LockedLogin [c9Pin, c9PinU1]).attempts ≤
      (LoginData.runPins c1LockedLogin [c9Pin, c9PinU1]).max_attempts ∧
    (Token.fresh.so_login.set_pin Token.fresh.info c9Pin).2.max_attempts = 10 :=
  ⟨C1_lockout_accounting.1 (aci.StorageACI.new true) c1LockedObj c1LockedInfo
     (by rfl),
   C1_lockout_accounting.2.1 (aci.StorageACI.new true) c1Fac c1LockedObj
     c9Pin true c1LockedInfo (by rfl) (by rfl),
   C1_lockout_accounting.2.2.1 (aci.StorageACI.new true)
     (aci.new_storage_object "so") [(c1Fac, c9Pin, true)] c1NewObjInv,
   C1_lockout_accounting.2.2.2.2.1 c1LockedLogin c9Pin (by decide),
   C1_lockout_accounting.2.2.2.2.2.1 c1LockedLogin [c9Pin, c9PinU1]
     (by decide),
   (C1_lockout_accounting.2.2.2.2.2.2 Token.fresh.so_login Token.fresh.info
     c9Pin (by decide)).1⟩

/-- Claim C2: `authenticate` decrypts the stored master-key envelope with
the key PBKDF2-derived from the supplied PIN (first conjunct: the
decryption pipeline is exactly PBKDF2 derivation followed by AES-GCM
under the fixed AAD); on success it resets the counter to 0 and installs
the master key in the in-memory ACI, marking the object for persistence
exactly when the stored count changed; on failure it increments the
counter by exactly one, writes it back to the auth object with the
persistence flag raised, and the `LoginData` path reports success or
PIN-Incorrect accordingly. -/
theorem C2_authenticate_semantics :
    (∀ (fac : aci.Facilities) (pin data : List Nat) (kv : Nat)
       (params : aci.PBKDF2Params) (gcm : aci.KGCMParams)
       (payload : List Nat),
        fac.parse data =
          some ⟨.kkbps1 ⟨kv, .pbkdf2 params, .aes256Gcm gcm⟩, payload⟩ →
        params.key_length = none →
        aci.decrypt_key fac pin data =
          Except.bind (aci.pbkdf2_derive fac params pin
            (aci.secret_key_template aci.AES_KEYTYP aci.AES_KEYLEN))
            (fun kek => Except.map (fun plain => (kv, plain))
              (aci.aes_gcm_decrypt fac kek gcm
                (aci.strBytes aci.KEK_AAD) payload)))
    ∧ (∀ (st : aci.StorageACI) (fac : aci.Facilities) (obj : Object)
         (pin : List Nat) (info : aci.StorageAuthInfo)
         (wrapped key : List Nat) (mk : Object),
        st.user_attempts obj = .ok info → info.locked = false →
        obj.get_attr_as_bytes CKA_VALUE = .ok wrapped →
        aci.decrypt_key fac pin wrapped = .ok (1, key) →
        st.encrypt = true →
        fac.factories_create (aci.secret_key_template aci.GEN_KEYTYP
          aci.AES_KEYLEN ++ [Attribute.from_bytes CKA_VALUE key]) = .ok mk →
        st.authenticate fac obj pin true =
          .ok ({ st with key := some mk },
               (if info.cur_attempts = 0 then obj
                else obj.set_attr (Attribute.from_ulong KRA_LOGIN_ATTEMPTS 0)),
               { info with cur_attempts := 0,
                           update_obj := decide (info.cur_attempts ≠ 0) }))
    ∧ (∀ (st : aci.StorageACI) (fac : aci.Facilities) (obj : Object)
         (pin : List Nat) (sk : Bool) (info : aci.StorageAuthInfo)
         (wrapped : List Nat) (e : KErr),
        st.user_attempts obj = .ok info → info.locked = false →
        obj.get_attr_as_bytes CKA_VALUE = .ok wrapped →
        aci.decrypt_key fac pin wrapped = .error e →
        st.authenticate fac obj pin sk =
          .ok (st,
               obj.set_attr (Attribute.from_ulong KRA_LOGIN_ATTEMPTS
                 (info.cur_attempts + 1)),
               { info with cur_attempts := info.cur_attempts + 1,
                           update_obj := true }))
    ∧ (∀ (l : LoginData) (pin p : List Nat),
        l.attempts < l.max_attempts → l.pin = some p →
        (p = pin →
          l.check_pin pin = (CKR_OK, { l with logged_in := true, attempts := 0 }))
        ∧ (p ≠ pin →
          l.check_pin pin =
            (CKR_PIN_INCORRECT, { l with attempts := l.attempts + 1 }))) := by
  refine ⟨?_, ?_, ?_, ?_⟩
  · intro fac pin data kv params gcm payload hparse hkl
    unfold aci.decrypt_key
    rw [hparse]
    simp only [hkl]
    match hk : aci.pbkdf2_derive fac params pin
        (aci.secret_key_template aci.AES_KEYTYP aci.AES_KEYLEN) with
    | .error e => simp [hk, Except.bind]
    | .ok kek =>
      simp only [hk]
      match hg : aci.aes_gcm_decrypt fac kek gcm
          (aci.strBytes aci.KEK_AAD) payload with
      | .error e => simp [hg, Except.bind, Except.map]
      | .ok plain => simp [hg, Except.bind, Except.map]
  · intro st fac obj pin info wrapped key mk hua hlock hv hd henc hcreate
    have hstep : st.auth_step fac pin wrapped true info.cur_attempts =
        .ok ({ st with key := some mk }, 0) := by
      unfold aci.StorageACI.auth_step
      rw [hd]
      simp [henc, hcreate]
    obtain ⟨_, _, _, hupd⟩ := aci.user_attempts_spec st obj info hua
    unfold aci.StorageACI.authenticate
    rw [hua]
    simp only [hlock, Bool.false_eq_true, if_false, hv, hstep]
    by_cases hz : info.cur_attempts = 0
    · rw [if_neg (by omega)]
      rw [if_pos hz]
      simp [hupd, hz]
    · rw [if_pos (by omega)]
      rw [if_neg hz]
      have : (decide (info.cur_attempts ≠ 0)) = true := by simp [hz]
      rw [this]
  · intro st fac obj pin sk info wrapped e hua hlock hv hd
    have hstep : st.auth_step fac pin wrapped sk info.cur_attempts =
        .ok (st, info.cur_attempts + 1) := by
      unfold aci.StorageACI.auth_step
      rw [hd]
    unfold aci.StorageACI.authenticate
    rw [hua]
    simp only [hlock, Bool.false_eq_true, if_false, hv, hstep]
    rw [if_pos (by omega)]
  · intro l pin p hlt hp
    constructor
    · intro heq
      unfold LoginData.check_pin
      rw [if_neg (by omega), hp]
      simp [heq]
    · intro hne
      unfold LoginData.check_pin
      rw [if_neg (by omega), hp]
      simp only [if_neg hne]

/-- Concrete PBKDF2 parameters (no declared key length). -/
def c2Params : aci.PBKDF2Params :=
  { salt := [1], iteration_count := 1000, key_length := none,
    prf := .hmacSha256 }

def c2Gcm : aci.KGCMParams :=
  { aes_iv := List.replicate 12 0, aes_tag := List.replicate 8 0 }

/-- A concrete parsed envelope: version 1, PBKDF2 derivation, AES-256-GCM. -/
def c2Env : aci.KProtectedData :=
  ⟨.kkbps1 ⟨1, .pbkdf2 c2Params, .aes256Gcm c2Gcm⟩, [7, 7]⟩

def c2Kek : Object := ⟨0, [Attribute.from_bytes CKA_VALUE (List.replicate 32 1)]⟩

def c2Mk : Object := ⟨0, [Attribute.from_bytes CKA_VALUE (List.replicate 32 2)]⟩

/-- A crypto oracle assembly under which decryption of the blob `[9]`
succeeds with master-key bytes `replicate 32 5`. -/
def c2Fac : aci.Facilities :=
  { parse := fun d => if d = [9] then some c2Env else none,
    pbkdf2_generate := fun _ _ _ => .ok c2Kek,
    gcm_msg_decrypt := fun _ _ _ _ => .ok (List.replicate 32 5),
    hkdf_expand_derive := fun _ _ _ => .error (.rv CKR_GENERAL_ERROR),
    factories_create := fun _ => .ok c2Mk }

/-- An auth object with 3 of 10 attempts consumed and wrapped blob `[9]`. -/
def c2AuthObj : Object :=
  ((aci.new_storage_object "user").set_attr
    (Attribute.from_ulong KRA_LOGIN_ATTEMPTS 3)).set_attr
    (Attribute.from_bytes CKA_VALUE [9])

def c2Info : aci.StorageAuthInfo :=
  { max_attempts := 10, cur_attempts := 3, locked := false,
    update_obj := false }

theorem C2_authenticate_semantics_witness :
    aci.decrypt_key c2Fac c9Pin [9] =
      Except.bind (aci.pbkdf2_derive c2Fac c2Params c9Pin
        (aci.secret_key_template aci.AES_KEYTYP aci.AES_KEYLEN))
        (fun kek => Except.map (fun plain => ((1 : Nat), plain))
          (aci.aes_gcm_decrypt c2Fac kek c2Gcm
            (aci.strBytes aci.KEK_AAD) [7, 7])) ∧
    (aci.StorageACI.new true).authenticate c2Fac c2AuthObj c9Pin true =
      .ok ({ aci.StorageACI.new true with key := some c2Mk },
           (if c2Info.cur_attempts = 0 then c2AuthObj
            else c2AuthObj.set_attr
              (Attribute.from_ulong KRA_LOGIN_ATTEMPTS 0)),
           { c2Info with cur_attempts := 0,
                         update_obj := decide (c2Info.cur_attempts ≠ 0) }) ∧
    (aci.StorageACI.new true).authenticate c1Fac c2AuthObj c9Pin true =
      .ok (aci.StorageACI.new true,
           c2AuthObj.set_attr (Attribute.from_ulong KRA_LOGIN_ATTEMPTS
             (c2Info.cur_attempts + 1)),
           { c2Info with cur_attempts := c2Info.cur_attempts + 1,
                         update_obj := true }) ∧
    ({ pin := some c9Pin, max_attempts := 10, attempts := 3,
       logged_in := false } : LoginData).check_pin c9Pin =
      (CKR_OK, { pin := some c9Pin, max_attempts := 10, attempts := 0,
                 logged_in := true }) ∧
    ({ pin := some c9Pin, max_attempts := 10, attempts := 3,
       logged_in := false } : LoginData).check_pin c9PinU1 =
      (CKR_PIN_INCORRECT, { pin := some c9Pin, max_attempts := 10,
                            attempts := 4, logged_in := false }) :=
  ⟨C2_authenticate_semantics.1 c2Fac c9Pin [9] 1 c2Params c2Gcm [7, 7]
     (by rfl) (by rfl),
   C2_authenticate_semantics.2.1 (aci.StorageACI.new true) c2Fac c2AuthObj
     c9Pin c2Info [9] (List.replicate 32 5) c2Mk (by rfl) (by rfl) (by rfl)
     (by rfl) (by rfl) (by rfl),
   C2_authenticate_semantics.2.2.1 (aci.StorageACI.new true) c1Fac c2AuthObj
     c9Pin true c2Info [9] (.rv CKR_DATA_INVALID) (by rfl) (by rfl) (by rfl)
     (by rfl),
   (C2_authenticate_semantics.2.2.2
     { pin := some c9Pin, max_attempts := 10, attempts := 3,
       logged_in := false } c9Pin c9Pin (by decide) (by rfl)).1 rfl,
   (C2_authenticate_semantics.2.2.2
     { pin := some c9Pin, max_attempts := 10, attempts := 3,
       logged_in := false } c9PinU1 c9Pin (by decide) (by rfl)).2
     (by decide)⟩

/-! ## Claim C5: login changes all sessions on the slot atomically. -/

def isPublicState : SessionState → Bool
  | .ro_public => true
  | .rw_public => true
  | _ => false

/-- The session state a successful login as `ut` leaves a session in. -/
def isLoggedState (ut : Nat) (st : SessionState) : Bool :=
  if ut = CKU_USER then
    match st with
    | .ro_user => true
    | .rw_user => true
    | _ => false
  else if ut = CKU_SO then
    match st with
    | .rw_so => true
    | _ => false
  else false

theorem change_session_state_slot_id (s : Session) (ut : Nat) :
    (s.change_session_state ut).2.slot_id = s.slot_id := by
  rcases s with ⟨h, sl, f, stt, sh, oh⟩
  unfold Session.change_session_state
  split_ifs <;> cases stt <;> rfl

theorem unavail_ne_user : CK_UNAVAILABLE_INFORMATION ≠ CKU_USER := by decide

theorem unavail_ne_so : CK_UNAVAILABLE_INFORMATION ≠ CKU_SO := by decide

theorem change_session_state_unavail (s : Session) :
    (s.change_session_state CK_UNAVAILABLE_INFORMATION).1 = CKR_OK ∧
    isPublicState
      (s.change_session_state CK_UNAVAILABLE_INFORMATION).2.state = true := by
  rcases s with ⟨h, sl, f, stt, sh, oh⟩
  unfold Session.change_session_state
  rw [if_neg unavail_ne_user, if_neg unavail_ne_so, if_pos rfl]
  cases stt <;> exact ⟨rfl, rfl⟩

theorem change_session_state_user_ok (s s' : Session)
    (h : s.change_session_state CKU_USER = (CKR_OK, s')) :
    isLoggedState CKU_USER s'.state = true := by
  rcases s with ⟨hh, sl, f, stt, sh, oh⟩
  unfold Session.change_session_state at h
  rw [if_pos rfl] at h
  cases stt <;>
    (dsimp only at h
     rw [Prod.mk.injEq] at h) <;>
    first
    | (obtain ⟨-, h2⟩ := h
       subst h2
       rfl)
    | (obtain ⟨h1, -⟩ := h
       exact absurd h1 (by decide))

theorem change_session_state_so_ok (s s' : Session)
    (h : s.change_session_state CKU_SO = (CKR_OK, s')) :
    isLoggedState CKU_SO s'.state = true := by
  rcases s with ⟨hh, sl, f, stt, sh, oh⟩
  unfold Session.change_session_state at h
  rw [if_neg (by decide : (CKU_SO : Nat) ≠ CKU_USER), if_pos rfl] at h
  cases stt <;>
    (dsimp only at h
     rw [Prod.mk.injEq] at h) <;>
    first
    | (obtain ⟨-, h2⟩ := h
       subst h2
       rfl)
    | (obtain ⟨h1, -⟩ := h
       exact absurd h1 (by decide))

/-- The revert pass (`change_all_sessions_states` with
`CK_UNAVAILABLE_INFORMATION`) always succeeds and leaves every session on
the slot in its public state. -/
theorem change_all_revert :
    ∀ (ss : List Session) (slot : Nat),
      (change_all_sessions_states ss slot CK_UNAVAILABLE_INFORMATION).1 =
        CKR_OK ∧
      ∀ s ∈ (change_all_sessions_states ss slot
          CK_UNAVAILABLE_INFORMATION).2,
        s.slot_id = slot → isPublicState s.state = true := by
  intro ss
  induction ss with
  | nil => intro slot; exact ⟨rfl, by intro s hs; cases hs⟩
  | cons s rest ih =>
    intro slot
    obtain ⟨ihrv, ihmem⟩ := ih slot
    by_cases hslot : s.slot_id = slot
    · rcases hcs : s.change_session_state CK_UNAVAILABLE_INFORMATION
        with ⟨rv, s'⟩
      obtain ⟨hrv, hpub⟩ := change_session_state_unavail s
      rw [hcs] at hrv hpub
      simp only [change_all_sessions_states, if_pos hslot, hcs, hrv]
      simp only [ne_eq, not_true_eq_false, if_false, CKR_OK]
      refine ⟨ihrv, ?_⟩
      intro x hx hxs
      rcases List.mem_cons.mp hx with rfl | hx'
      · exact hpub
      · exact ihmem x hx' hxs
    · simp only [change_all_sessions_states, if_neg hslot]
      refine ⟨ihrv, ?_⟩
      intro x hx hxs
      rcases List.mem_cons.mp hx with rfl | hx'
      · exact absurd hxs hslot
      · exact ihmem x hx' hxs

/-- When the propagation pass reports success, every session on the slot
ends in the logged-in state for the user type. -/
theorem change_all_success (ut : Nat) (hut : ut = CKU_USER ∨ ut = CKU_SO) :
    ∀ (ss : List Session) (slot : Nat),
      (change_all_sessions_states ss slot ut).1 = CKR_OK →
      ∀ s ∈ (change_all_sessions_states ss slot ut).2,
        s.slot_id = slot → isLoggedState ut s.state = true := by
  intro ss
  induction ss with
  | nil => intro slot _ s hs; cases hs
  | cons s rest ih =>
    intro slot hok
    by_cases hslot : s.slot_id = slot
    · rcases hcs : s.change_session_state ut with ⟨rv, s'⟩
      by_cases hrv : rv = CKR_OK
      · subst hrv
        simp only [change_all_sessions_states, if_pos hslot, hcs,
          ne_eq, not_true_eq_false, if_false] at hok ⊢
        intro x hx hxs
        rcases List.mem_cons.mp hx with rfl | hx'
        · rcases hut with rfl | rfl
          · exact change_session_state_user_ok s x hcs
          · exact change_session_state_so_ok s x hcs
        · exact ih slot hok x hx' hxs
      · exfalso
        simp only [change_all_sessions_states, if_pos hslot, hcs,
          ne_eq, hrv, not_false_eq_true, if_true] at hok
    · simp only [change_all_sessions_states, if_neg hslot] at hok ⊢
      intro x hx hxs
      rcases List.mem_cons.mp hx with rfl | hx'
      · exact absurd hxs hslot
      · exact ih slot hok x hx' hxs

/-- Sessions bound to a different slot are untouched by the propagation
pass (stated via the sublist of sessions on that slot). -/
theorem change_all_offslot :
    ∀ (ss : List Session) (slot ut q : Nat), q ≠ slot →
      (change_all_sessions_states ss slot ut).2.filter
        (fun s => s.slot_id = q) =
      ss.filter (fun s => s.slot_id = q) := by
  intro ss
  induction ss with
  | nil => intro slot ut q _; rfl
  | cons s rest ih =>
    intro slot ut q hq
    by_cases hslot : s.slot_id = slot
    · rcases hcs : s.change_session_state ut with ⟨rv, s'⟩
      have hsid : s'.slot_id = s.slot_id := by
        have := change_session_state_slot_id s ut
        rw [hcs] at this
        exact this
      have hdrop : (decide (s'.slot_id = q)) = false := by
        simp only [decide_eq_false_iff_not]
        rw [hsid, hslot]
        exact fun hc => hq hc.symm
      have hdrop₀ : (decide (s.slot_id = q)) = false := by
        simp only [decide_eq_false_iff_not]
        rw [hslot]
        exact fun hc => hq hc.symm
      by_cases hrv : rv = CKR_OK
      · subst hrv
        simp only [change_all_sessions_states, if_pos hslot, hcs,
          ne_eq, not_true_eq_false, if_false]
        rw [List.filter_cons, List.filter_cons, hdrop, hdrop₀]
        exact ih slot ut q hq
      · simp only [change_all_sessions_states, if_pos hslot, hcs,
          ne_eq, hrv, not_false_eq_true, if_true]
        rw [List.filter_cons, List.filter_cons, hdrop, hdrop₀]
        simp
    · simp only [change_all_sessions_states, if_neg hslot]
      rw [List.filter_cons, List.filter_cons]
      cases hd : decide (s.slot_id = q)
      · exact ih slot ut q hq
      · rw [ih _ ut _ hq]

theorem LoginData.check_pin_ok (l : LoginData) (p : List Nat)
    (h : (l.check_pin p).1 = CKR_OK) : (l.check_pin p).2.logged_in = true := by
  unfold LoginData.check_pin at h ⊢
  by_cases hl : l.max_attempts ≤ l.attempts
  · rw [if_pos hl] at h
    simp [CKR_OK, CKR_PIN_LOCKED, CKR_PIN_INCORRECT, CKR_USER_PIN_NOT_INITIALIZED, CKR_USER_ALREADY_LOGGED_IN, CKR_USER_ANOTHER_ALREADY_LOGGED_IN, CKR_USER_TYPE_INVALID] at h
  · rw [if_neg hl] at h ⊢
    rcases hp : l.pin with _ | q
    · simp only [hp] at h
      simp [CKR_OK, CKR_PIN_LOCKED, CKR_PIN_INCORRECT, CKR_USER_PIN_NOT_INITIALIZED, CKR_USER_ALREADY_LOGGED_IN, CKR_USER_ANOTHER_ALREADY_LOGGED_IN, CKR_USER_TYPE_INVALID] at h
    · simp only [hp] at h ⊢
      by_cases hq : q = p
      · simp only [if_pos hq]
      · simp only [if_neg hq] at h
        simp [CKR_OK, CKR_PIN_LOCKED, CKR_PIN_INCORRECT, CKR_USER_PIN_NOT_INITIALIZED, CKR_USER_ALREADY_LOGGED_IN, CKR_USER_ANOTHER_ALREADY_LOGGED_IN, CKR_USER_TYPE_INVALID] at h

theorem Token.get_so_login_data_flags (t t' : Token)
    (h : t.get_so_login_data = .ok t') :
    t'.so_login.logged_in = t.so_login.logged_in ∧
    t'.user_login = t.user_login := by
  unfold Token.get_so_login_data at h
  by_cases hp : t.so_login.pin.isSome
  · simp only [hp, if_true] at h
    cases h
    exact ⟨rfl, rfl⟩
  · simp only [hp, Bool.false_eq_true, if_false] at h
    match ho : alistGet t.objects "0" with
    | none => rw [ho] at h; cases h
    | some obj =>
      simp only [ho] at h
      match hv : t.validate_pin_obj obj "SO PIN" with
      | .error e => rw [hv] at h; cases h
      | .ok (pin, max) =>
        rw [hv] at h
        cases h
        exact ⟨rfl, rfl⟩

theorem Token.get_user_login_data_flags (t t' : Token)
    (h : t.get_user_login_data = .ok t') :
    t'.user_login.logged_in = t.user_login.logged_in ∧
    t'.so_login = t.so_login := by
  unfold Token.get_user_login_data at h
  by_cases hp : t.user_login.pin.isSome
  · simp only [hp, if_true] at h
    cases h
    exact ⟨rfl, rfl⟩
  · simp only [hp, Bool.false_eq_true, if_false] at h
    match ho : alistGet t.objects "1" with
    | none => rw [ho] at h; cases h
    | some obj =>
      simp only [ho] at h
      match hv : t.validate_pin_obj obj "User PIN" with
      | .error e => rw [hv] at h; cases h
      | .ok (pin, max) =>
        rw [hv] at h
        cases h
        exact ⟨rfl, rfl⟩

/-- After a successful `Token::login` followed by `Token::logout`, no
principal is logged in on the token. -/
theorem Token.login_ok_logout_clears (tok : Token) (ut : Nat)
    (pin : List Nat) (h : (tok.login ut pin).1 = CKR_OK) :
    ((tok.login ut pin).2.logout).2.so_login.logged_in = false ∧
    ((tok.login ut pin).2.logout).2.user_login.logged_in = false := by
  unfold Token.login at h ⊢
  by_cases hso : ut = CKU_SO
  · rw [if_pos hso] at h ⊢
    by_cases h1 : tok.so_login.logged_in = true
    · rw [if_pos h1] at h
      simp [CKR_OK, CKR_PIN_LOCKED, CKR_PIN_INCORRECT, CKR_USER_PIN_NOT_INITIALIZED, CKR_USER_ALREADY_LOGGED_IN, CKR_USER_ANOTHER_ALREADY_LOGGED_IN, CKR_USER_TYPE_INVALID] at h
    · rw [if_neg h1] at h ⊢
      by_cases h2 : tok.user_login.logged_in = true
      · rw [if_pos h2] at h
        simp [CKR_OK, CKR_PIN_LOCKED, CKR_PIN_INCORRECT, CKR_USER_PIN_NOT_INITIALIZED, CKR_USER_ALREADY_LOGGED_IN, CKR_USER_ANOTHER_ALREADY_LOGGED_IN, CKR_USER_TYPE_INVALID] at h
      · rw [if_neg h2] at h ⊢
        match hgd : tok.get_so_login_data with
        | .error e =>
          simp only [hgd] at h ⊢
          unfold Token.logout
          rw [if_neg (by simp [h2]), if_neg (by simp [h1])]
          exact ⟨Bool.eq_false_iff.mpr h1, Bool.eq_false_iff.mpr h2⟩
        | .ok t' =>
          obtain ⟨hfso, hfus⟩ := Token.get_so_login_data_flags tok t' hgd
          simp only [hgd] at h ⊢
          rcases hcp : t'.so_login.check_pin pin with ⟨rv, sl⟩
          simp only [hcp] at h ⊢
          have hlg : sl.logged_in = true := by
            have := LoginData.check_pin_ok t'.so_login pin (by rw [hcp]; exact h)
            rw [hcp] at this
            exact this
          unfold Token.logout
          rw [if_neg (by
            show ¬({ t' with so_login := sl }.user_login.logged_in = true)
            simp only [hfus]
            simp [h2])]
          rw [if_pos (by
            show { t' with so_login := sl }.so_login.logged_in = true
            exact hlg)]
          refine ⟨rfl, ?_⟩
          show t'.user_login.logged_in = false
          rw [hfus]
          exact Bool.eq_false_iff.mpr h2
  · rw [if_neg hso] at h ⊢
    by_cases hus : ut = CKU_USER
    · rw [if_pos hus] at h ⊢
      by_cases h1 : tok.user_login.logged_in = true
      · rw [if_pos h1] at h
        simp [CKR_OK, CKR_PIN_LOCKED, CKR_PIN_INCORRECT, CKR_USER_PIN_NOT_INITIALIZED, CKR_USER_ALREADY_LOGGED_IN, CKR_USER_ANOTHER_ALREADY_LOGGED_IN, CKR_USER_TYPE_INVALID] at h
      · rw [if_neg h1] at h ⊢
        by_cases h2 : tok.so_login.logged_in = true
        · rw [if_pos h2] at h
          simp [CKR_OK, CKR_PIN_LOCKED, CKR_PIN_INCORRECT, CKR_USER_PIN_NOT_INITIALIZED, CKR_USER_ALREADY_LOGGED_IN, CKR_USER_ANOTHER_ALREADY_LOGGED_IN, CKR_USER_TYPE_INVALID] at h
        · rw [if_neg h2] at h ⊢
          match hgd : tok.get_user_login_data with
          | .error e =>
            simp only [hgd] at h ⊢
            unfold Token.logout
            rw [if_neg (by simp [h1]), if_neg (by simp [h2])]
            exact ⟨Bool.eq_false_iff.mpr h2, Bool.eq_false_iff.mpr h1⟩
          | .ok t' =>
            obtain ⟨hfus, hfso⟩ := Token.get_user_login_data_flags tok t' hgd
            simp only [hgd] at h ⊢
            rcases hcp : t'.user_login.check_pin pin with ⟨rv, ul⟩
            simp only [hcp] at h ⊢
            have hlg : ul.logged_in = true := by
              have := LoginData.check_pin_ok t'.user_login pin
                (by rw [hcp]; exact h)
              rw [hcp] at this
              exact this
            unfold Token.logout
            rw [if_pos (by
              show { t' with user_login := ul }.user_login.logged_in = true
              exact hlg)]
            refine ⟨?_, rfl⟩
            show t'.so_login.logged_in = false
            rw [hfso]
            exact Bool.eq_false_iff.mpr h2
    · rw [if_neg hus] at h
      simp [CKR_OK, CKR_PIN_LOCKED, CKR_PIN_INCORRECT, CKR_USER_PIN_NOT_INITIALIZED, CKR_USER_ALREADY_LOGGED_IN, CKR_USER_ANOTHER_ALREADY_LOGGED_IN, CKR_USER_TYPE_INVALID] at h

theorem Token.login_ok_ut (tok : Token) (ut : Nat) (pin : List Nat)
    (h : (tok.login ut pin).1 = CKR_OK) : ut = CKU_USER ∨ ut = CKU_SO := by
  by_cases hso : ut = CKU_SO
  · exact Or.inr hso
  · by_cases hus : ut = CKU_USER
    · exact Or.inl hus
    · exfalso
      unfold Token.login at h
      rw [if_neg hso, if_neg hus] at h
      simp [CKR_USER_TYPE_INVALID, CKR_OK] at h

/-- Claim C5: after any `fn_login` call and for any slot, the sessions on
that slot are never left in a mix of updated and stale states — either
the slot's session sublist is exactly what it was before the call, or
every session on the slot is in a public state and the token is fully
logged out (the revert path), or the call succeeded and every session on
the slot is in the logged-in state for the requested user type. -/
theorem C5_login_atomicity (st : SessionsState) (tok : Token)
    (handle ut : Nat) (pin : List Nat) (slot : Nat) :
    ((fn_login st tok handle ut pin).2.2.filter (fun s => s.slot_id = slot) =
       st.sessions.filter (fun s => s.slot_id = slot))
    ∨ ((∀ s ∈ (fn_login st tok handle ut pin).2.2,
          s.slot_id = slot → isPublicState s.state = true)
       ∧ (fn_login st tok handle ut pin).2.1.so_login.logged_in = false
       ∧ (fn_login st tok handle ut pin).2.1.user_login.logged_in = false)
    ∨ ((fn_login st tok handle ut pin).1 = CKR_OK
       ∧ ∀ s ∈ (fn_login st tok handle ut pin).2.2,
          s.slot_id = slot → isLoggedState ut s.state = true) := by
  unfold fn_login
  match hgs : st.get_session handle with
  | .error e =>
    simp only [hgs]
    left
    trivial
  | .ok session =>
    simp only [hgs]
    by_cases hso : ut = CKU_SO ∧
        st.check_slot_has_sessions session.slot_id true = true
    · rw [if_pos hso]
      left
      rfl
    · rw [if_neg hso]
      rcases hlg : tok.login ut pin with ⟨ret, tok₁⟩
      simp only [hlg]
      by_cases hret : ret = CKR_OK
      · subst hret
        simp only [ne_eq, not_true_eq_false, if_false]
        rcases hca : change_all_sessions_states st.sessions
            session.slot_id ut with ⟨rv, sessions₁⟩
        simp only [hca]
        by_cases hrv : rv = CKR_OK
        · rw [if_pos hrv]
          by_cases hq : slot = session.slot_id
          · right; right
            refine ⟨rfl, ?_⟩
            intro s hs hss
            subst hq
            have hut : ut = CKU_USER ∨ ut = CKU_SO :=
              Token.login_ok_ut tok ut pin (by rw [hlg])
            have hsucc := change_all_success ut hut st.sessions
              session.slot_id (by rw [hca]; exact hrv)
            rw [hca] at hsucc
            exact hsucc s hs hss
          · left
            have hoff := change_all_offslot st.sessions session.slot_id ut
              slot hq
            rw [hca] at hoff
            exact hoff
        · rw [if_neg hrv]
          rcases hlo : tok₁.logout with ⟨lrv, tok₂⟩
          rcases hre : change_all_sessions_states sessions₁
              session.slot_id CK_UNAVAILABLE_INFORMATION with ⟨rrv, sessions₂⟩
          simp only [hlo, hre]
          by_cases hq : slot = session.slot_id
          · right; left
            subst hq
            have hclear := Token.login_ok_logout_clears tok ut pin
              (by rw [hlg])
            rw [hlg] at hclear
            simp only at hclear
            rw [hlo] at hclear
            refine ⟨?_, hclear.1, hclear.2⟩
            intro s hs hss
            have hrev := (change_all_revert sessions₁ session.slot_id).2
            rw [hre] at hrev
            exact hrev s hs hss
          · left
            have h1 := change_all_offslot st.sessions session.slot_id ut
              slot hq
            have h2 := change_all_offslot sessions₁ session.slot_id
              CK_UNAVAILABLE_INFORMATION slot hq
            rw [hca] at h1
            rw [hre] at h2
            exact h2.trans h1
      · rw [if_pos hret]
        left
        rfl
